import Mathlib

/-!
Verification development for the AFEM repository (aircraft-structure modeling
toolkit layered over a CAD kernel).

The Python sources are shallowly embedded as Lean definitions:

* `src/afem/structure/create.py`   — part builder classes
* `src/afem/io/vsp/vsp_importer.py` — the `ImportVSP` importer
* `src/afem/graphics/viewer.py`    — `ViewableItem`, `occView`
* `src/afem/patches/topo_patch.py` — monkey patches on `TopoDS_Shape`

Every non-trivial geometric operation in the repository is a call into the
external CAD kernel (OpenCASCADE via the OCC/OCCT bindings) or into AFEM
helper modules that are not part of the four source files above; those calls
are modelled as fields of an abstract `Kernel` structure.  Python's dynamic
typing at the `_validate_type` boundary is modelled by the `PyObj` wrapper,
and Python exceptions by `Except PyError`.
-/

/-- The Python exception classes that matter to this repository's behavior. -/
inductive ExcKind : Type
  | typeError
  | runtimeError
  | indexError
  | attributeError
  deriving DecidableEq, Repr

/-- Where a raised exception comes from.  The first three correspond to
`raise` statements written in this repository's own code; the last three are
exceptions produced by the Python runtime or the external kernel while
executing repository code (no `raise` statement of this repository). -/
inductive ErrOrigin : Type
  | inputValidation    -- `_validate_type`: `raise TypeError('Invalid input type.')`
  | notDoneFlag        -- `raise RuntimeError('Boolean operation failed.')`
  | notImplementedStub -- `occView.export_pdf`: `raise NotImplemented('Need gl2ps library.')`
  | runtimeIndexing    -- `[0]` on an empty list (IndexError from the runtime)
  | runtimeAttribute   -- attribute access on a wrongly-typed object
  | externalKernel     -- a kernel call applied to `None`/unsupported input
  deriving DecidableEq, Repr

/-- A raised Python exception: its class, its origin, and its message. -/
structure PyError : Type where
  kind : ExcKind
  origin : ErrOrigin
  msg : String
  deriving DecidableEq, Repr

/-- Model of `TypeError('Invalid input type.')` raised by `_validate_type`. -/
def PyError.typeValidation : PyError :=
  ⟨.typeError, .inputValidation, "Invalid input type."⟩

/-- Model of `RuntimeError('Boolean operation failed.')` raised by the builders when a
kernel Boolean operation reports not done. -/
def PyError.boolFailed : PyError :=
  ⟨.runtimeError, .notDoneFlag, "Boolean operation failed."⟩

/-- Model of `IndexError` from indexing `[0]` into an empty list (raised by the
runtime, not by a `raise` statement of this repository). -/
def PyError.indexErr : PyError :=
  ⟨.indexError, .runtimeIndexing, "list index out of range"⟩

/-- Model of `AttributeError` from calling a method on a wrongly-typed object before
it has been validated (raised by the runtime). -/
def PyError.attrErr : PyError :=
  ⟨.attributeError, .runtimeAttribute, "object has no such attribute"⟩

/-- Failure of an external kernel call applied to a `None` argument; the
concrete exception class is owned by the external binding layer.  Modelled
with origin `externalKernel`, which is never a repository `raise`. -/
def PyError.externalErr : PyError :=
  ⟨.typeError, .externalKernel, "kernel call on invalid argument"⟩

/-- The exception produced by `occView.export_pdf`.  The source line is
`raise NotImplemented('Need gl2ps library.')`: `NotImplemented` is the
non-callable singleton (not the `NotImplementedError` class), so evaluating
the raise expression itself raises
`TypeError("'NotImplementedType' object is not callable")`. -/
def PyError.notImplErr : PyError :=
  ⟨.typeError, .notImplementedStub, "NotImplementedType object is not callable"⟩

/-- Does the origin correspond to a `raise` statement written in this
repository's own code? -/
def ownRaiseOrigin : ErrOrigin → Bool
  | .inputValidation => true
  | .notDoneFlag => true
  | .notImplementedStub => true
  | .runtimeIndexing => false
  | .runtimeAttribute => false
  | .externalKernel => false

/-- The two error shapes the specification allows: a type error coming from
input-type validation, or a runtime error propagating the kernel's
"operation not done" flag. -/
def allowedPyError (e : PyError) : Prop :=
  (e.kind = .typeError ∧ e.origin = .inputValidation) ∨
  (e.kind = .runtimeError ∧ e.origin = .notDoneFlag)

instance (e : PyError) : Decidable (allowedPyError e) := by
  unfold allowedPyError; infer_instance

/-- A dynamically-typed Python argument position expecting an `α`:
`val a` is an object of the expected type, `wrongType` any (truthy) object of
another type, `pyNone` the value `None`. -/
inductive PyObj (α : Type) : Type
  | val (a : α)
  | wrongType
  | pyNone

/-- Model of `_validate_type(input_, type_)` with `required=True`
(`src/afem/structure/create.py`, lines 27-35): a wrongly-typed object, and
also `None` (since `isinstance(None, type_)` is false), raise
`TypeError('Invalid input type.')`. -/
def validateReq {α : Type} : PyObj α → Except PyError α
  | .val a => .ok a
  | .wrongType => .error .typeValidation
  | .pyNone => .error .typeValidation

/-- Model of `_validate_type(input_, type_, required=False)`: a falsy input (`None`)
is accepted and passed through, a wrongly-typed (truthy) object raises. -/
def validateOpt {α : Type} : PyObj α → Except PyError (Option α)
  | .val a => .ok (some a)
  | .wrongType => .error .typeValidation
  | .pyNone => .ok none

/-- Re-wrap an optional value as the Python argument it came from. -/
def pyOfOpt {α : Type} : Option α → PyObj α
  | none => .pyNone
  | some a => .val a

/-- Sequencing of Python statements that may raise (explicit `Except` bind,
kept as its own definition so proofs can case on it). -/
def pyBind {α β : Type} (x : Except PyError α) (f : α → Except PyError β) :
    Except PyError β :=
  match x with
  | .error e => .error e
  | .ok a => f a

/-- The abstract CAD kernel and AFEM helper surface consumed by the four
embedded source files.  Each field is one external class/method used by the
repository; `Option` results model operations carrying an `IsDone`/`is_done`
flag (`none` = "operation not done"). -/
structure Kernel : Type 1 where
  Shape : Type        -- OCC.TopoDS.TopoDS_Shape (vertices/edges/wires/faces/shells included)
  Surface : Type      -- afem.geometry.entities.Surface
  Curve : Type        -- afem.geometry.entities.Curve
  Plane : Type        -- afem.geometry.entities.Plane
  Point : Type        -- afem.geometry.entities.Point
  Trsf : Type         -- gp transformation (gce_MakeMirror(...).Value())
  Wing : Type         -- afem.oml.entities.Wing
  Fuselage : Type     -- afem.oml.entities.Fuselage
  Solid : Type        -- OCC.TopoDS.TopoDS_Solid
  Body : Type         -- afem.oml.entities.Body
  -- subtype upcasts (Plane is a Surface; wings/fuselages/bodies are passed
  -- where the kernel expects shape-like operands)
  planeSurf : Plane → Surface
  wingShape : Wing → Shape
  fuselageShape : Fuselage → Shape
  bodySolid : Body → Solid
  -- Wing methods
  extract_plane : Wing → ℚ → ℚ → ℚ → ℚ → Plane
  extract_curve : Wing → ℚ → ℚ → ℚ → ℚ → Shape → Curve
  sref_shape : Wing → Shape
  sref_u1 : Wing → ℚ
  sref_v1 : Wing → ℚ
  wing_eval : Wing → ℚ → ℚ → Point
  invert : Wing → Point → ℚ × ℚ
  -- Curve methods
  curve_u1 : Curve → ℚ
  curve_u2 : Curve → ℚ
  curve_eval : Curve → ℚ → Point
  curve_reverse : Curve → Curve
  -- Point and Plane methods
  dist : Point → Point → ℚ
  plane_eval : Plane → ℚ → ℚ → Point
  -- afem.topology / afem.geometry builder helpers
  edgeByCurve : Curve → Shape                      -- EdgeByCurve(c).edge
  faceBySurface : Surface → Shape                  -- FaceBySurface(srf).face
  faceByPlanarWire : Shape → Shape                 -- FaceByPlanarWire(w).face
  wireByPlanarOffset : Shape → ℚ → Shape           -- WireByPlanarOffset(w, d).wire
  wireByConcat : Shape → Shape                     -- WireByConcat(w).wire
  shapeByFaces : List Shape → Shape                -- ShapeByFaces(faces).shape
  wiresByConnectedEdges : List Shape → List Shape  -- WiresByConnectedEdges(es).wires
  to_wire : Shape → Shape                          -- CheckShape.to_wire
  nurbsCurveByPoints : Point → Point → Curve       -- NurbsCurveByPoints([p1, p2]).curve
  -- ExploreShape / ExploreFreeEdges
  get_faces : Shape → List Shape
  get_edges : Shape → List Shape
  get_vertices : Shape → List Shape
  outer_shell : Solid → Shape
  copy_shape : Shape → Shape                       -- ExploreShape.copy_shape(sh, False)
  surface_of_shape : Shape → Surface
  curve_of_shape : Shape → Curve
  pnt_of_vertex : Shape → Point
  closed_wires : Shape → List Shape                -- ExploreFreeEdges(sh).closed_wires
  longest_shape : List Shape → Shape               -- LengthOfShapes(l).longest_shape
  -- Boolean operations; `none` models `is_done == False`
  common : Shape → Shape → Option Shape            -- CommonShapes
  cut : Shape → Shape → Option Shape               -- CutShapes
  intersectShapes : Shape → Shape → Shape          -- IntersectShapes(a, b).shape
  -- plane distribution builders (afem.geometry.create)
  planesBetweenPlanesByNumber :
    Plane → Plane → Int → Option ℚ → Option ℚ → List Plane × Int × ℚ
  planesBetweenPlanesByDistance :
    Plane → Plane → ℚ → Option ℚ → Option ℚ → Int → List Plane × Int × ℚ
  planesAlongCurveByNumber :
    Curve → Int → Option Plane → Option ℚ → Option ℚ → Option ℚ → Option ℚ →
      ℚ → List Plane × Int × ℚ
  planesAlongCurveByDistance :
    Curve → ℚ → Option Plane → Option ℚ → Option ℚ → Option ℚ → Option ℚ →
      Int → ℚ → List Plane × Int × ℚ
  -- mirroring (gce_MakeMirror / BRepBuilderAPI_Transform)
  makeMirror : Plane → Trsf
  transformShape : Shape → Trsf → Option Shape     -- none models not IsDone()

/-- The data stored on a structural part object by the builders: label,
shape, optional reference curve, optional reference surface.  (`Spar`,
`Rib`, `Bulkhead`, `Floor`, `Frame`, `Skin`, `CurvePart` and `Beam` all
carry this payload; categories not needing `cref`/`sref` leave them
`none`.) -/
structure PartData (K : Kernel) : Type where
  label : String
  shape : K.Shape
  cref : Option K.Curve
  sref : Option K.Surface

/-- Argument union `(Surface, TopoDS_Face, TopoDS_Shell)` used by the spar,
rib and surface-part builders: either a geometric surface or a face/shell
shape (faces and shells receive identical treatment in the sources, so both
are `ofShape`). -/
inductive BasisArg (K : Kernel) : Type
  | ofSurface (s : K.Surface)
  | ofShape (sh : K.Shape)

/-- Argument union `(Curve, TopoDS_Edge, TopoDS_Wire)` used by
`CurvePartByShape` and `BeamByShape` (edges and wires are both `ofShape`). -/
inductive CurveShapeArg (K : Kernel) : Type
  | ofCurve (c : K.Curve)
  | ofShape (sh : K.Shape)

/-- Model of `CommonShapes(a, b)` followed by the `is_done` check: raises
`RuntimeError('Boolean operation failed.')` when the kernel reports the
operation not done, otherwise yields `common.shape`. -/
def commonRaw (K : Kernel) (a b : K.Shape) : Except PyError K.Shape :=
  match K.common a b with
  | none => .error .boolFailed
  | some sh => .ok sh

/-- Model of `CutShapes(a, b)` followed by the `is_done` check. -/
def cutRaw (K : Kernel) (a b : K.Shape) : Except PyError K.Shape :=
  match K.cut a b with
  | none => .error .boolFailed
  | some sh => .ok sh

/-- The block `if basis_shape is None: ... elif isinstance(basis_shape,
Surface): ... else: ...` shared verbatim by `SparByParameters.__init__` and
`RibByParameters.__init__`: computes the pair (reference surface, basis
shape). -/
def sparBasis (K : Kernel) (wing : K.Wing) (u1 v1 u2 v2 : ℚ) :
    Option (BasisArg K) → K.Surface × K.Shape
  | none =>
    let pln := K.extract_plane wing u1 v1 u2 v2
    (K.planeSurf pln, K.faceBySurface (K.planeSurf pln))
  | some (.ofSurface s) => (s, K.faceBySurface s)
  | some (.ofShape sh) => (K.surface_of_shape sh, sh)

/-- Model of `SparByParameters.__init__` (`create.py`, lines 248-277): validate
`wing` and `basis_shape`, determine reference surface and basis shape,
extract the wing reference curve, run the `CommonShapes` Boolean against the
wing, and assemble the part shape from the faces of the result. -/
def SparByParameters (K : Kernel) (label : String) (u1 v1 u2 v2 : ℚ)
    (wingA : PyObj K.Wing) (basisA : PyObj (BasisArg K)) :
    Except PyError (PartData K) :=
  pyBind (validateReq wingA) fun wing =>
  pyBind (validateOpt basisA) fun b? =>
  let sb := sparBasis K wing u1 v1 u2 v2 b?
  let cref := K.extract_curve wing u1 v1 u2 v2 sb.2
  pyBind (commonRaw K sb.2 (K.wingShape wing)) fun shape0 =>
  .ok ⟨label, K.shapeByFaces (K.get_faces shape0), some cref, some sb.1⟩

/-- Model of `RibByParameters.__init__` (lines 478-507); the body is the verbatim
twin of `SparByParameters.__init__`, producing a `Rib`. -/
def RibByParameters (K : Kernel) (label : String) (u1 v1 u2 v2 : ℚ)
    (wingA : PyObj K.Wing) (basisA : PyObj (BasisArg K)) :
    Except PyError (PartData K) :=
  pyBind (validateReq wingA) fun wing =>
  pyBind (validateOpt basisA) fun b? =>
  let sb := sparBasis K wing u1 v1 u2 v2 b?
  let cref := K.extract_curve wing u1 v1 u2 v2 sb.2
  pyBind (commonRaw K sb.2 (K.wingShape wing)) fun shape0 =>
  .ok ⟨label, K.shapeByFaces (K.get_faces shape0), some cref, some sb.1⟩

/-- Model of `SparByPoints.__init__` (lines 314-327): the two points are converted by
`CheckGeom.to_point` (identity on points, modelled away) and validated;
`wing.invert` is then called on the still-unvalidated `wing` (a wrong-typed
wing raises `AttributeError` from the runtime here, before
`SparByParameters` would validate it). -/
def SparByPoints (K : Kernel) (label : String) (p1A p2A : PyObj K.Point)
    (wingA : PyObj K.Wing) (basisA : PyObj (BasisArg K)) :
    Except PyError (PartData K) :=
  pyBind (validateReq p1A) fun p1 =>
  pyBind (validateReq p2A) fun p2 =>
  match wingA with
  | .val wing =>
    let uv1 := K.invert wing p1
    let uv2 := K.invert wing p2
    SparByParameters K label uv1.1 uv1.2 uv2.1 uv2.2 (.val wing) basisA
  | .wrongType => .error .attrErr
  | .pyNone => .error .attrErr

/-- Model of `RibByPoints.__init__` (lines 544-557), twin of `SparByPoints`. -/
def RibByPoints (K : Kernel) (label : String) (p1A p2A : PyObj K.Point)
    (wingA : PyObj K.Wing) (basisA : PyObj (BasisArg K)) :
    Except PyError (PartData K) :=
  pyBind (validateReq p1A) fun p1 =>
  pyBind (validateReq p2A) fun p2 =>
  match wingA with
  | .val wing =>
    let uv1 := K.invert wing p1
    let uv2 := K.invert wing p2
    RibByParameters K label uv1.1 uv1.2 uv2.1 uv2.2 (.val wing) basisA
  | .wrongType => .error .attrErr
  | .pyNone => .error .attrErr

/-- The reference-curve construction and orientation block shared verbatim
by `SparBySurface.__init__` and `RibBySurface.__init__` (lines 351-367):
intersect the basis face with the wing reference shape, connect the edges
into wires, take the curve of the longest wire, and reverse it if its far
end is nearer the wing's `(u1, v1)` corner. -/
def surfaceCref (K : Kernel) (basis_shape : K.Shape) (wing : K.Wing) :
    K.Curve :=
  let sec := K.intersectShapes basis_shape (K.sref_shape wing)
  let edges := K.get_edges sec
  let wires := K.wiresByConnectedEdges edges
  let w := K.to_wire (K.longest_shape wires)
  let cref := K.curve_of_shape w
  let p0 := K.wing_eval wing (K.sref_u1 wing) (K.sref_v1 wing)
  let p1 := K.curve_eval cref (K.curve_u1 cref)
  let p2 := K.curve_eval cref (K.curve_u2 cref)
  if K.dist p0 p2 < K.dist p0 p1 then K.curve_reverse cref else cref

/-- Model of `SparBySurface.__init__` (lines 345-379). -/
def SparBySurface (K : Kernel) (label : String) (srfA : PyObj K.Surface)
    (wingA : PyObj K.Wing) : Except PyError (PartData K) :=
  pyBind (validateReq srfA) fun srf =>
  pyBind (validateReq wingA) fun wing =>
  let basis_shape := K.faceBySurface srf
  let cref := surfaceCref K basis_shape wing
  pyBind (commonRaw K basis_shape (K.wingShape wing)) fun shape0 =>
  .ok ⟨label, K.shapeByFaces (K.get_faces shape0), some cref, some srf⟩

/-- Model of `RibBySurface.__init__` (lines 575-609), twin of `SparBySurface`. -/
def RibBySurface (K : Kernel) (label : String) (srfA : PyObj K.Surface)
    (wingA : PyObj K.Wing) : Except PyError (PartData K) :=
  pyBind (validateReq srfA) fun srf =>
  pyBind (validateReq wingA) fun wing =>
  let basis_shape := K.faceBySurface srf
  let cref := surfaceCref K basis_shape wing
  pyBind (commonRaw K basis_shape (K.wingShape wing)) fun shape0 =>
  .ok ⟨label, K.shapeByFaces (K.get_faces shape0), some cref, some srf⟩

/-- The basis argument of the between-shapes builders after the
`if isinstance(basis_shape, Surface): basis_shape = FaceBySurface(...).face`
conversion.  A `None` basis is subsequently passed to `IntersectShapes`,
whose behavior on `None` is owned by the external binding layer — modelled
as the external failure `externalErr` (not a repository `raise`). -/
def basisToShape (K : Kernel) : Option (BasisArg K) → Except PyError K.Shape
  | some (.ofSurface s) => .ok (K.faceBySurface s)
  | some (.ofShape sh) => .ok sh
  | none => .error .externalErr

/-- Model of `ExploreShape.get_vertices(sh)[0]`: the first vertex of a shape; `[0]`
raises `IndexError` from the runtime when there are none. -/
def firstVertex (K : Kernel) (sh : K.Shape) : Except PyError K.Shape :=
  match K.get_vertices sh with
  | [] => .error .indexErr
  | v :: _ => .ok v

/-- Model of `SparBetweenShapes.__init__` (lines 405-424): validate both shapes, the
wing, and the optional basis; convert a `Surface` basis to a face; intersect
the basis with the wing reference shape and each input shape with the
result; take the first vertex of each intersection; and delegate to
`SparByPoints` with the vertices' points and the converted basis. -/
def SparBetweenShapes (K : Kernel) (label : String)
    (shape1A shape2A : PyObj K.Shape) (wingA : PyObj K.Wing)
    (basisA : PyObj (BasisArg K)) : Except PyError (PartData K) :=
  pyBind (validateReq shape1A) fun s1 =>
  pyBind (validateReq shape2A) fun s2 =>
  pyBind (validateReq wingA) fun wing =>
  pyBind (validateOpt basisA) fun b? =>
  pyBind (basisToShape K b?) fun bsh =>
  let wing_basis_edges := K.intersectShapes bsh (K.sref_shape wing)
  pyBind (firstVertex K (K.intersectShapes s1 wing_basis_edges)) fun v1 =>
  pyBind (firstVertex K (K.intersectShapes s2 wing_basis_edges)) fun v2 =>
  SparByPoints K label (.val (K.pnt_of_vertex v1))
    (.val (K.pnt_of_vertex v2)) (.val wing) (.val (.ofShape bsh))

/-- Model of `RibBetweenShapes.__init__` (lines 635-654), twin of
`SparBetweenShapes` delegating to `RibByPoints`. -/
def RibBetweenShapes (K : Kernel) (label : String)
    (shape1A shape2A : PyObj K.Shape) (wingA : PyObj K.Wing)
    (basisA : PyObj (BasisArg K)) : Except PyError (PartData K) :=
  pyBind (validateReq shape1A) fun s1 =>
  pyBind (validateReq shape2A) fun s2 =>
  pyBind (validateReq wingA) fun wing =>
  pyBind (validateOpt basisA) fun b? =>
  pyBind (basisToShape K b?) fun bsh =>
  let wing_basis_edges := K.intersectShapes bsh (K.sref_shape wing)
  pyBind (firstVertex K (K.intersectShapes s1 wing_basis_edges)) fun v1 =>
  pyBind (firstVertex K (K.intersectShapes s2 wing_basis_edges)) fun v2 =>
  RibByPoints K label (.val (K.pnt_of_vertex v1))
    (.val (K.pnt_of_vertex v2)) (.val wing) (.val (.ofShape bsh))

/-- Model of `BulkheadBySurface.__init__` (lines 1019-1035). -/
def BulkheadBySurface (K : Kernel) (label : String) (srfA : PyObj K.Surface)
    (fuselageA : PyObj K.Fuselage) : Except PyError (PartData K) :=
  pyBind (validateReq srfA) fun srf =>
  pyBind (validateReq fuselageA) fun fus =>
  let basis_shape := K.faceBySurface srf
  pyBind (commonRaw K basis_shape (K.fuselageShape fus)) fun shape0 =>
  .ok ⟨label, K.shapeByFaces (K.get_faces shape0), none, some srf⟩

/-- Model of `FloorBySurface.__init__` (lines 1060-1076), twin of
`BulkheadBySurface` producing a `Floor`. -/
def FloorBySurface (K : Kernel) (label : String) (srfA : PyObj K.Surface)
    (fuselageA : PyObj K.Fuselage) : Except PyError (PartData K) :=
  pyBind (validateReq srfA) fun srf =>
  pyBind (validateReq fuselageA) fun fus =>
  let basis_shape := K.faceBySurface srf
  pyBind (commonRaw K basis_shape (K.fuselageShape fus)) fun shape0 =>
  .ok ⟨label, K.shapeByFaces (K.get_faces shape0), none, some srf⟩

/-- The outer-wire selection of `FrameByPlane.__init__` (lines 1118-1122):
the longest closed free-boundary wire when there are several, otherwise
`closed_wires[0]` — which raises `IndexError` from the runtime when the
list is empty. -/
def outerClosedWire (K : Kernel) (ws : List K.Shape) : Except PyError K.Shape :=
  if ws.length > 1 then .ok (K.longest_shape ws)
  else
    match ws with
    | [] => .error .indexErr
    | w :: _ => .ok w

/-- Model of `FrameByPlane.__init__` (lines 1103-1140): validate; common Boolean of
the plane's face with the fuselage; select the outer closed free-boundary
wire; offset it by `-abs(height)` and concatenate; make the inner face and
cut it from the common shape; reassemble from faces. -/
def FrameByPlane (K : Kernel) (label : String) (plnA : PyObj K.Plane)
    (fuselageA : PyObj K.Fuselage) (height : ℚ) :
    Except PyError (PartData K) :=
  pyBind (validateReq plnA) fun pln =>
  pyBind (validateReq fuselageA) fun fus =>
  let basis_shape := K.faceBySurface (K.planeSurf pln)
  pyBind (commonRaw K basis_shape (K.fuselageShape fus)) fun shape0 =>
  pyBind (outerClosedWire K (K.closed_wires shape0)) fun outer_wire =>
  let inner_wire := K.wireByConcat (K.wireByPlanarOffset outer_wire (-|height|))
  let inner_face := K.faceByPlanarWire inner_wire
  pyBind (cutRaw K shape0 inner_face) fun shape1 =>
  .ok ⟨label, K.shapeByFaces (K.get_faces shape1), none, some (K.planeSurf pln)⟩

/-- Model of `SkinBySolid.__init__` (lines 1387-1394): validate the solid, take its
outer shell, optionally copy it (`ExploreShape.copy_shape(shell, False)`),
and store it as the skin shape.  No Boolean operation is involved. -/
def SkinBySolid (K : Kernel) (label : String) (solidA : PyObj K.Solid)
    (copy : Bool) : Except PyError (PartData K) :=
  pyBind (validateReq solidA) fun solid =>
  let shell := K.outer_shell solid
  let shell := if copy then K.copy_shape shell else shell
  .ok ⟨label, shell, none, none⟩

/-- Model of `SkinByBody.__init__` (lines 1414-1416): validate the body, then run
`SkinBySolid.__init__` on it.  (`SkinBySolid` re-validates the body against
`TopoDS_Solid`; `Body` — defined in `afem.oml.entities`, outside these
sources — is taken to be a `TopoDS_Solid` subtype, the only reading under
which this constructor is usable, so that check passes.) -/
def SkinByBody (K : Kernel) (label : String) (bodyA : PyObj K.Body)
    (copy : Bool) : Except PyError (PartData K) :=
  pyBind (validateReq bodyA) fun body =>
  SkinBySolid K label (.val (K.bodySolid body)) copy

/-- Model of `CurvePartByShape.__init__` (lines 59-69): validate the shape union and
the optional reference curve; a `Curve` input is converted by
`EdgeByCurve`; a missing `cref` defaults to
`ExploreShape.curve_of_shape(shape)`. -/
def CurvePartByShape (K : Kernel) (label : String)
    (shapeA : PyObj (CurveShapeArg K)) (crefA : PyObj K.Curve) :
    Except PyError (PartData K) :=
  pyBind (validateReq shapeA) fun sa =>
  pyBind (validateOpt crefA) fun c? =>
  let sh := match sa with
    | .ofCurve c => K.edgeByCurve c
    | .ofShape s => s
  let cref := match c? with
    | none => K.curve_of_shape sh
    | some c => c
  .ok ⟨label, sh, some cref, none⟩

/-- Model of `BeamByShape.__init__` (lines 101-111), verbatim twin of
`CurvePartByShape` producing a `Beam`. -/
def BeamByShape (K : Kernel) (label : String)
    (shapeA : PyObj (CurveShapeArg K)) (crefA : PyObj K.Curve) :
    Except PyError (PartData K) :=
  pyBind (validateReq shapeA) fun sa =>
  pyBind (validateOpt crefA) fun c? =>
  let sh := match sa with
    | .ofCurve c => K.edgeByCurve c
    | .ofShape s => s
  let cref := match c? with
    | none => K.curve_of_shape sh
    | some c => c
  .ok ⟨label, sh, some cref, none⟩

/-- Model of `BeamByCurve.__init__` (lines 137-141): validate the curve, build its
edge, delegate to `BeamByShape`. -/
def BeamByCurve (K : Kernel) (label : String) (crvA : PyObj K.Curve) :
    Except PyError (PartData K) :=
  pyBind (validateReq crvA) fun c =>
  BeamByShape K label (.val (.ofShape (K.edgeByCurve c))) (.val c)

/-- Model of `BeamByPoints.__init__` (lines 160-168): convert and validate the two
points (`CheckGeom.to_point` is the identity on points and is modelled
away), build the two-point NURBS curve, delegate to `BeamByCurve`. -/
def BeamByPoints (K : Kernel) (label : String) (p1A p2A : PyObj K.Point) :
    Except PyError (PartData K) :=
  pyBind (validateReq p1A) fun p1 =>
  pyBind (validateReq p2A) fun p2 =>
  BeamByCurve K label (.val (K.nurbsCurveByPoints p1 p2))

/-- Model of `SurfacePartByShape.__init__` (lines 197-208): only the raise behavior
is modelled (three `_validate_type` calls); after validation the
constructor merely marshals kernel objects into a `SurfacePart` and this
repository raises nothing further there. -/
def SurfacePartByShape (K : Kernel) (shapeA : PyObj (BasisArg K))
    (crefA : PyObj K.Curve) (srefA : PyObj K.Surface) :
    Except PyError Unit :=
  pyBind (validateReq shapeA) fun _ =>
  pyBind (validateOpt crefA) fun _ =>
  pyBind (validateOpt srefA) fun _ =>
  .ok ()

/-- Result data shared by the multi-part builder classes: the created parts
(in creation order), `next_index`, the part count reported by the plane
builder (`nribs`/`nframes`), and the spacing. -/
structure MultiResult (K : Kernel) : Type where
  parts : List (PartData K)
  next_index : Int
  nparts : Int
  spacing : Option ℚ

/-- The creation loop shared verbatim by all multi-part builders
(e.g. lines 696-703): for each plane, build one part labelled
`delimiter.join([label, str(first_index)])`, increment `first_index`,
append; the final `first_index` becomes `next_index`. -/
def partLoop (K : Kernel) {β : Type} (mk : String → β → Except PyError (PartData K))
    (label delim : String) : Int → List β → Except PyError (List (PartData K) × Int)
  | first, [] => .ok ([], first)
  | first, b :: bs =>
    match mk (label ++ delim ++ toString first) b with
    | .error e => .error e
    | .ok part =>
      match partLoop K mk label delim (first + 1) bs with
      | .error e => .error e
      | .ok (rest, nxt) => .ok (part :: rest, nxt)

/-- Model of `RibsBetweenPlanesByNumber.__init__` (lines 680-703): validation in
source order (pln1, pln2, wing, shape1, shape2), the
`PlanesBetweenPlanesByNumber` plane distribution, then the creation loop
with `RibBetweenShapes` on `FaceBySurface(pln).face`. -/
def RibsBetweenPlanesByNumber (K : Kernel) (label : String)
    (pln1A pln2A : PyObj K.Plane) (n : Int) (shape1A shape2A : PyObj K.Shape)
    (wingA : PyObj K.Wing) (d1 d2 : Option ℚ) (first_index : Int)
    (delimiter : String) : Except PyError (MultiResult K) :=
  pyBind (validateReq pln1A) fun pln1 =>
  pyBind (validateReq pln2A) fun pln2 =>
  pyBind (validateReq wingA) fun wing =>
  pyBind (validateReq shape1A) fun s1 =>
  pyBind (validateReq shape2A) fun s2 =>
  let bres := K.planesBetweenPlanesByNumber pln1 pln2 n d1 d2
  pyBind (partLoop K (fun lbl pln =>
      RibBetweenShapes K lbl (.val s1) (.val s2) (.val wing)
        (.val (.ofShape (K.faceBySurface (K.planeSurf pln)))))
      label delimiter first_index bres.1) fun pr =>
  .ok ⟨pr.1, pr.2, bres.2.1, some bres.2.2⟩

/-- Model of `RibsBetweenPlanesByDistance.__init__` (lines 764-786). -/
def RibsBetweenPlanesByDistance (K : Kernel) (label : String)
    (pln1A pln2A : PyObj K.Plane) (maxd : ℚ) (shape1A shape2A : PyObj K.Shape)
    (wingA : PyObj K.Wing) (d1 d2 : Option ℚ) (nmin : Int) (first_index : Int)
    (delimiter : String) : Except PyError (MultiResult K) :=
  pyBind (validateReq pln1A) fun pln1 =>
  pyBind (validateReq pln2A) fun pln2 =>
  pyBind (validateReq wingA) fun wing =>
  pyBind (validateReq shape1A) fun s1 =>
  pyBind (validateReq shape2A) fun s2 =>
  let bres := K.planesBetweenPlanesByDistance pln1 pln2 maxd d1 d2 nmin
  pyBind (partLoop K (fun lbl pln =>
      RibBetweenShapes K lbl (.val s1) (.val s2) (.val wing)
        (.val (.ofShape (K.faceBySurface (K.planeSurf pln)))))
      label delimiter first_index bres.1) fun pr =>
  .ok ⟨pr.1, pr.2, bres.2.1, some bres.2.2⟩

/-- Model of `RibsAlongCurveByNumber.__init__` (lines 850-875): validation in source
order (crv, shape1, shape2, wing, ref_pln). -/
def RibsAlongCurveByNumber (K : Kernel) (label : String)
    (crvA : PyObj K.Curve) (n : Int) (shape1A shape2A : PyObj K.Shape)
    (wingA : PyObj K.Wing) (refPlnA : PyObj K.Plane) (u1 u2 d1 d2 : Option ℚ)
    (first_index : Int) (delimiter : String) (tol : ℚ) :
    Except PyError (MultiResult K) :=
  pyBind (validateReq crvA) fun crv =>
  pyBind (validateReq shape1A) fun s1 =>
  pyBind (validateReq shape2A) fun s2 =>
  pyBind (validateReq wingA) fun wing =>
  pyBind (validateOpt refPlnA) fun ref_pln =>
  let bres := K.planesAlongCurveByNumber crv n ref_pln u1 u2 d1 d2 tol
  pyBind (partLoop K (fun lbl pln =>
      RibBetweenShapes K lbl (.val s1) (.val s2) (.val wing)
        (.val (.ofShape (K.faceBySurface (K.planeSurf pln)))))
      label delimiter first_index bres.1) fun pr =>
  .ok ⟨pr.1, pr.2, bres.2.1, some bres.2.2⟩

/-- Model of `RibsAlongCurveByDistance.__init__` (lines 941-965). -/
def RibsAlongCurveByDistance (K : Kernel) (label : String)
    (crvA : PyObj K.Curve) (maxd : ℚ) (shape1A shape2A : PyObj K.Shape)
    (wingA : PyObj K.Wing) (refPlnA : PyObj K.Plane) (u1 u2 d1 d2 : Option ℚ)
    (nmin : Int) (first_index : Int) (delimiter : String) (tol : ℚ) :
    Except PyError (MultiResult K) :=
  pyBind (validateReq crvA) fun crv =>
  pyBind (validateReq shape1A) fun s1 =>
  pyBind (validateReq shape2A) fun s2 =>
  pyBind (validateReq wingA) fun wing =>
  pyBind (validateOpt refPlnA) fun ref_pln =>
  let bres := K.planesAlongCurveByDistance crv maxd ref_pln u1 u2 d1 d2 nmin tol
  pyBind (partLoop K (fun lbl pln =>
      RibBetweenShapes K lbl (.val s1) (.val s2) (.val wing)
        (.val (.ofShape (K.faceBySurface (K.planeSurf pln)))))
      label delimiter first_index bres.1) fun pr =>
  .ok ⟨pr.1, pr.2, bres.2.1, some bres.2.2⟩

/-- Model of `FramesBetweenPlanesByNumber.__init__` (lines 1173-1192). -/
def FramesBetweenPlanesByNumber (K : Kernel) (label : String)
    (pln1A pln2A : PyObj K.Plane) (n : Int) (fuselageA : PyObj K.Fuselage)
    (height : ℚ) (d1 d2 : Option ℚ) (first_index : Int) (delimiter : String) :
    Except PyError (MultiResult K) :=
  pyBind (validateReq pln1A) fun pln1 =>
  pyBind (validateReq pln2A) fun pln2 =>
  pyBind (validateReq fuselageA) fun fus =>
  let bres := K.planesBetweenPlanesByNumber pln1 pln2 n d1 d2
  pyBind (partLoop K (fun lbl pln => FrameByPlane K lbl (.val pln) (.val fus) height)
      label delimiter first_index bres.1) fun pr =>
  .ok ⟨pr.1, pr.2, bres.2.1, some bres.2.2⟩

/-- Model of `FramesBetweenPlanesByDistance.__init__` (lines 1251-1269). -/
def FramesBetweenPlanesByDistance (K : Kernel) (label : String)
    (pln1A pln2A : PyObj K.Plane) (maxd : ℚ) (fuselageA : PyObj K.Fuselage)
    (height : ℚ) (d1 d2 : Option ℚ) (nmin : Int) (first_index : Int)
    (delimiter : String) : Except PyError (MultiResult K) :=
  pyBind (validateReq pln1A) fun pln1 =>
  pyBind (validateReq pln2A) fun pln2 =>
  pyBind (validateReq fuselageA) fun fus =>
  let bres := K.planesBetweenPlanesByDistance pln1 pln2 maxd d1 d2 nmin
  pyBind (partLoop K (fun lbl pln => FrameByPlane K lbl (.val pln) (.val fus) height)
      label delimiter first_index bres.1) fun pr =>
  .ok ⟨pr.1, pr.2, bres.2.1, some bres.2.2⟩

/-- Validate every element of a Python list
(`for pln in plns: _validate_type(pln, Plane)`). -/
def validateAll {α : Type} : List (PyObj α) → Except PyError (List α)
  | [] => .ok []
  | x :: xs =>
    pyBind (validateReq x) fun a =>
    pyBind (validateAll xs) fun rest =>
    .ok (a :: rest)

/-- Model of `FramesByPlanes.__init__` (lines 1320-1341): validate every plane and
the fuselage; `nframes = len(plns)`; the creation loop with `FrameByPlane`;
spacing is the distance between the first two planes' `eval(0., 0.)` points
when there are at least two, else `None`. -/
def FramesByPlanes (K : Kernel) (label : String)
    (plnsA : List (PyObj K.Plane)) (fuselageA : PyObj K.Fuselage)
    (height : ℚ) (first_index : Int) (delimiter : String) :
    Except PyError (MultiResult K) :=
  pyBind (validateAll plnsA) fun plns =>
  pyBind (validateReq fuselageA) fun fus =>
  pyBind (partLoop K (fun lbl pln => FrameByPlane K lbl (.val pln) (.val fus) height)
      label delimiter first_index plns) fun pr =>
  let spacing := match plns with
    | p1 :: p2 :: _ => some (K.dist (K.plane_eval p1 0 0) (K.plane_eval p2 0 0))
    | _ => none
  .ok ⟨pr.1, pr.2, (plns.length : Int), spacing⟩

/- ----------------------------------------------------------------------
`src/afem/io/vsp/vsp_importer.py`: the `ImportVSP` importer.

The class-level dictionary `ImportVSP._bodies` is the single process-wide
mapping shared by all call sites; it is modelled as an explicit state value
threaded through the class methods.  A Python `dict` preserving insertion
order with unique keys is modelled as an association list in which
assignment overwrites the existing entry for a key in place.
---------------------------------------------------------------------- -/

/-- Assignment `d[k] = v` on a Python dict modelled as an association
list: overwrite the entry holding `k`, or append a new entry. -/
def dictInsert {β : Type} : List (String × β) → String → β → List (String × β)
  | [], k, v => [(k, v)]
  | p :: ps, k, v => if p.1 = k then (k, v) :: ps else p :: dictInsert ps k v

/-- Lookup `d[k]` returning `none` when the key is absent. -/
def dictGet {β : Type} : List (String × β) → String → Option β
  | [], _ => none
  | p :: ps, k => if p.1 = k then some p.2 else dictGet ps k

/-- Model of `d.update(news)`: assign every entry of `news` in order. -/
def dictUpdate {β : Type} : List (String × β) → List (String × β) → List (String × β)
  | m, [] => m
  | m, p :: ps => dictUpdate (dictInsert m p.1 p.2) ps

/-- The state of the `ImportVSP` class: its class attribute `_bodies`. -/
structure ImportVSPState (Body : Type) : Type where
  bodies : List (String × Body)

/-- Model of `ImportVSP.step_file` (importer lines 12-24): the bodies parsed from
the file by `import_vsp_step` (external to this file; its result is the
`parsed` argument) are merged into the class mapping with
`cls._bodies.update(bodies)`; returns `True`. -/
def ImportVSP.step_file {Body : Type} (st : ImportVSPState Body)
    (parsed : List (String × Body)) : ImportVSPState Body × Bool :=
  (⟨dictUpdate st.bodies parsed⟩, true)

/-- Model of `ImportVSP.clear` (lines 26-32): `cls._bodies.clear()`; returns `True`. -/
def ImportVSP.clear {Body : Type} (st : ImportVSPState Body) :
    ImportVSPState Body × Bool :=
  (⟨[]⟩, true)

/-- Model of `ImportVSP.get_body` (lines 34-45): `cls._bodies[name]` with the
`KeyError` caught and turned into `None`. -/
def ImportVSP.get_body {Body : Type} (st : ImportVSPState Body)
    (name : String) : Option Body :=
  dictGet st.bodies name

/-- Model of `ImportVSP.get_bodies` (lines 47-54). -/
def ImportVSP.get_bodies {Body : Type} (st : ImportVSPState Body) :
    List (String × Body) :=
  st.bodies

/- ----------------------------------------------------------------------
`src/afem/graphics/viewer.py` and `src/afem/patches/topo_patch.py`.
---------------------------------------------------------------------- -/

/-- Model of `ViewableItem` (viewer lines 45-120).  The color is a `Quantity_Color`
RGB triple.  `shape` is the underlying kernel shape of the concrete
viewable subclass: `get_mirrored` passes `self` itself to
`BRepBuilderAPI_Transform`, i.e. uses the item as a shape. -/
structure ViewableItem (K : Kernel) : Type where
  shape : K.Shape
  color : ℚ × ℚ × ℚ
  transparency : ℚ
  mirror : Option K.Plane

/-- Model of `ViewableItem.__init__` (lines 57-62): random color (the sampled
triple is the `r g b` argument here), zero transparency, no mirror. -/
def ViewableItem.init (K : Kernel) (sh : K.Shape) (r g b : ℚ) :
    ViewableItem K :=
  ⟨sh, (r, g, b), 0, none⟩

/-- Model of `ViewableItem.set_color` (lines 64-80): components greater than 1 are
divided by 255, then the triple is stored as a `Quantity_Color`. -/
def ViewableItem.set_color {K : Kernel} (self : ViewableItem K)
    (r g b : ℚ) : ViewableItem K :=
  let r := if r > 1 then r / 255 else r
  let g := if g > 1 then g / 255 else g
  let b := if b > 1 then b / 255 else b
  { self with color := (r, g, b) }

/-- Model of `ViewableItem.set_transparency` (lines 82-94): clamp to [0, 1]. -/
def ViewableItem.set_transparency {K : Kernel} (self : ViewableItem K)
    (transparency : ℚ) : ViewableItem K :=
  let t := if transparency < 0 then 0
           else if transparency > 1 then 1 else transparency
  { self with transparency := t }

/-- Model of `ViewableItem.set_mirror` (lines 96-104). -/
def ViewableItem.set_mirror {K : Kernel} (self : ViewableItem K)
    (pln : K.Plane) : ViewableItem K :=
  { self with mirror := some pln }

/-- Model of `ViewableItem.get_mirrored` (lines 106-120): `None` when no mirror
plane is set; otherwise build the mirror transform and run
`BRepBuilderAPI_Transform`, returning `None` when the builder is not done
and the transformed shape otherwise.  Total — it raises nothing. -/
def ViewableItem.get_mirrored {K : Kernel} (self : ViewableItem K) :
    Option K.Shape :=
  match self.mirror with
  | none => none
  | some pln =>
    let trsf := K.makeMirror pln
    match K.transformShape self.shape trsf with
    | none => none
    | some sh => some sh

/-- The attributes the patch module attaches to `TopoDS_Shape`
(`topo_patch.py` lines 59-65): class defaults `color = None`,
`transparency = 0.`, `mirror = None`. -/
structure TopoShapeAttrs (K : Kernel) : Type where
  shape : K.Shape
  color : Option (ℚ × ℚ × ℚ)
  transparency : ℚ
  mirror : Option K.Plane

/-- The default attribute state of a fresh `TopoDS_Shape` under the patch. -/
def TopoShapeAttrs.init (K : Kernel) (sh : K.Shape) : TopoShapeAttrs K :=
  ⟨sh, none, 0, none⟩

/-- Model of `_set_color` (patch lines 22-32), the monkey-patched
`TopoDS_Shape.set_color`: same component normalization as
`ViewableItem.set_color`. -/
def TopoShapeAttrs.set_color {K : Kernel} (self : TopoShapeAttrs K)
    (r g b : ℚ) : TopoShapeAttrs K :=
  let r := if r > 1 then r / 255 else r
  let g := if g > 1 then g / 255 else g
  let b := if b > 1 then b / 255 else b
  { self with color := some (r, g, b) }

/-- Model of `_set_mirror` (patch lines 42-43). -/
def TopoShapeAttrs.set_mirror {K : Kernel} (self : TopoShapeAttrs K)
    (pln : K.Plane) : TopoShapeAttrs K :=
  { self with mirror := some pln }

/-- Model of `_get_mirrored` (patch lines 46-53), the monkey-patched
`TopoDS_Shape.get_mirrored`; the patched shape passes itself to
`BRepBuilderAPI_Transform`.  Total — it raises nothing. -/
def TopoShapeAttrs.get_mirrored {K : Kernel} (self : TopoShapeAttrs K) :
    Option K.Shape :=
  match self.mirror with
  | none => none
  | some pln =>
    let trsf := K.makeMirror pln
    match K.transformShape self.shape trsf with
    | none => none
    | some sh => some sh

/-- The camera operations the viewer widget forwards events to. -/
inductive V3dOrientation : Type
  | xposYposZpos  -- V3d_XposYposZpos (isometric)
  | zpos          -- V3d_Zpos (top)
  | zneg
  | xneg
  | xpos
  | yneg
  | ypos
  deriving DecidableEq, Repr

/-- One call on the kernel-provided `V3d_View`. -/
inductive ViewCall : Type
  | fitAll
  | setProj (o : V3dOrientation)
  | setZoom (z : ℚ)
  deriving DecidableEq, Repr

/-- Model of `occView.view_iso` (viewer lines 441-447). -/
def occView.view_iso : ViewCall := .setProj .xposYposZpos

/-- Model of `occView.view_top` (lines 449-455). -/
def occView.view_top : ViewCall := .setProj .zpos

/-- The keyboard map built by `occView.init` (lines 195-199):
`ord('F') = 70 ↦ FitAll`, `ord('I') = 73 ↦ view_iso`,
`ord('T') = 84 ↦ view_top`. -/
def occView.keymap : List (Nat × ViewCall) :=
  [(70, .fitAll), (73, occView.view_iso), (84, occView.view_top)]

/-- Model of `occView.keyPressEvent` (lines 210-214): look the key up in the map
and invoke the camera operation; a `KeyError` (unknown key) is caught and
ignored.  The result is the list of view calls the handler makes. -/
def occView.keyPressEvent (key : Nat) : List ViewCall :=
  match occView.keymap.find? (fun p => p.1 = key) with
  | some p => [p.2]
  | none => []

/-- Model of `occView.wheelEvent` (lines 216-221): zoom factor 1.5 for a positive
delta, 0.75 otherwise, always forwarded to `SetZoom`. -/
def occView.wheelEvent (delta : Int) : List ViewCall :=
  [.setZoom (if delta > 0 then 1.5 else 0.75)]

/-- Model of `occView.export_pdf` (lines 516-523): unconditionally executes
`raise NotImplemented('Need gl2ps library.')`, which raises the
`TypeError` described at `PyError.notImplErr`. -/
def occView.export_pdf (fn : String) : Except PyError Unit :=
  .error .notImplErr

/- ----------------------------------------------------------------------
Concrete kernel instances used to evaluate the model on explicit inputs.
---------------------------------------------------------------------- -/

/-- A tiny executable kernel on which every operation succeeds.  All object
types are `ℕ`; `common`/`cut` always report done with result `0`;
face-assembled shapes are `0` while `outer_shell` yields `1` (so a shape
assembled from Boolean faces is distinguishable from an outer shell);
`longest_shape` takes the head of the list. -/
@[reducible] def KTest : Kernel where
  Shape := Nat
  Surface := Nat
  Curve := Nat
  Plane := Nat
  Point := Nat
  Trsf := Nat
  Wing := Nat
  Fuselage := Nat
  Solid := Nat
  Body := Nat
  planeSurf := id
  wingShape := id
  fuselageShape := id
  bodySolid := id
  extract_plane := fun _ _ _ _ _ => 0
  extract_curve := fun _ _ _ _ _ _ => 0
  sref_shape := fun _ => 0
  sref_u1 := fun _ => 0
  sref_v1 := fun _ => 0
  wing_eval := fun _ _ _ => 0
  invert := fun _ _ => (0, 0)
  curve_u1 := fun _ => 0
  curve_u2 := fun _ => 0
  curve_eval := fun _ _ => 0
  curve_reverse := id
  dist := fun _ _ => 1
  plane_eval := fun _ _ _ => 0
  edgeByCurve := fun _ => 0
  faceBySurface := fun _ => 0
  faceByPlanarWire := fun _ => 0
  wireByPlanarOffset := fun _ _ => 0
  wireByConcat := id
  shapeByFaces := fun _ => 0
  wiresByConnectedEdges := id
  to_wire := id
  nurbsCurveByPoints := fun _ _ => 0
  get_faces := fun _ => [0]
  get_edges := fun _ => [0]
  get_vertices := fun _ => [0]
  outer_shell := fun _ => 1
  copy_shape := id
  surface_of_shape := fun _ => 0
  curve_of_shape := fun _ => 0
  pnt_of_vertex := fun _ => 0
  closed_wires := fun _ => [0]
  longest_shape := fun ws => ws.headD 0
  common := fun _ _ => some 0
  cut := fun _ _ => some 0
  intersectShapes := fun _ _ => 0
  planesBetweenPlanesByNumber := fun _ _ _ _ _ => ([0, 0], 2, 1)
  planesBetweenPlanesByDistance := fun _ _ _ _ _ _ => ([0, 0], 2, 1)
  planesAlongCurveByNumber := fun _ _ _ _ _ _ _ _ => ([0, 0], 2, 1)
  planesAlongCurveByDistance := fun _ _ _ _ _ _ _ _ _ => ([0, 0], 2, 1)
  makeMirror := fun _ => 0
  transformShape := fun _ _ => some 0

/-- A kernel identical to `KTest` except that every Boolean operation and
every transform builder reports "operation not done". -/
@[reducible] def KFail : Kernel :=
  { KTest with
    common := fun _ _ => none
    cut := fun _ _ => none
    transformShape := fun _ _ => none }

/- ----------------------------------------------------------------------
Helper lemmas (shared across the claim theorems).
---------------------------------------------------------------------- -/

theorem pyBind_ok_left {α β : Type} (a : α) (f : α → Except PyError β) :
    pyBind (Except.ok a) f = f a := rfl

theorem pyBind_error_left {α β : Type} (e : PyError)
    (f : α → Except PyError β) :
    pyBind (Except.error e) f = Except.error e := rfl

theorem validateReq_val {α : Type} (a : α) :
    validateReq (PyObj.val a) = Except.ok a := rfl

theorem validateOpt_pyOfOpt {α : Type} (o : Option α) :
    validateOpt (pyOfOpt o) = Except.ok o := by
  cases o <;> rfl

theorem validateReq_error {α : Type} {x : PyObj α} {e : PyError}
    (h : validateReq x = Except.error e) : e = PyError.typeValidation := by
  cases x with
  | val a => exact absurd h (by simp [validateReq])
  | wrongType => injection h with h; exact h.symm
  | pyNone => injection h with h; exact h.symm

theorem validateOpt_error {α : Type} {x : PyObj α} {e : PyError}
    (h : validateOpt x = Except.error e) : e = PyError.typeValidation := by
  cases x with
  | val a => exact absurd h (by simp [validateOpt])
  | wrongType => injection h with h; exact h.symm
  | pyNone => exact absurd h (by simp [validateOpt])

theorem pyBind_error_elim {α β : Type} {x : Except PyError α}
    {f : α → Except PyError β} {e : PyError}
    (h : pyBind x f = Except.error e) :
    x = Except.error e ∨ ∃ a, x = Except.ok a ∧ f a = Except.error e := by
  cases x with
  | error e0 =>
    left
    injection h with h
    rw [h]
  | ok a => exact Or.inr ⟨a, rfl, h⟩

theorem pyBind_ok_elim {α β : Type} {x : Except PyError α}
    {f : α → Except PyError β} {b : β}
    (h : pyBind x f = Except.ok b) :
    ∃ a, x = Except.ok a ∧ f a = Except.ok b := by
  cases x with
  | error e0 => exact Except.noConfusion h
  | ok a => exact ⟨a, rfl, h⟩

theorem commonRaw_error {K : Kernel} {a b : K.Shape} {e : PyError}
    (h : commonRaw K a b = Except.error e) : e = PyError.boolFailed := by
  unfold commonRaw at h
  cases hc : K.common a b with
  | none => rw [hc] at h; injection h with h; exact h.symm
  | some sh => rw [hc] at h; exact Except.noConfusion h

theorem cutRaw_error {K : Kernel} {a b : K.Shape} {e : PyError}
    (h : cutRaw K a b = Except.error e) : e = PyError.boolFailed := by
  unfold cutRaw at h
  cases hc : K.cut a b with
  | none => rw [hc] at h; injection h with h; exact h.symm
  | some sh => rw [hc] at h; exact Except.noConfusion h

theorem commonRaw_ok_elim {K : Kernel} {a b : K.Shape} {sh : K.Shape}
    (h : commonRaw K a b = Except.ok sh) : K.common a b = some sh := by
  unfold commonRaw at h
  cases hc : K.common a b with
  | none => rw [hc] at h; exact Except.noConfusion h
  | some s0 => rw [hc] at h; injection h with h; rw [h]

theorem cutRaw_ok_elim {K : Kernel} {a b : K.Shape} {sh : K.Shape}
    (h : cutRaw K a b = Except.ok sh) : K.cut a b = some sh := by
  unfold cutRaw at h
  cases hc : K.cut a b with
  | none => rw [hc] at h; exact Except.noConfusion h
  | some s0 => rw [hc] at h; injection h with h; rw [h]

theorem commonRaw_error_iff {K : Kernel} (a b : K.Shape) :
    commonRaw K a b = Except.error PyError.boolFailed ↔ K.common a b = none := by
  unfold commonRaw
  cases hc : K.common a b with
  | none => simp
  | some sh => simp

theorem outerClosedWire_error {K : Kernel} {ws : List K.Shape} {e : PyError}
    (h : outerClosedWire K ws = Except.error e) : e = PyError.indexErr := by
  unfold outerClosedWire at h
  by_cases hl : ws.length > 1
  · rw [if_pos hl] at h; exact Except.noConfusion h
  · rw [if_neg hl] at h
    cases ws with
    | nil => injection h with h; exact h.symm
    | cons w ws => exact Except.noConfusion h

/-- The exceptions that can surface from the part-builder constructors. -/
def builderError (e : PyError) : Prop :=
  e = PyError.typeValidation ∨ e = PyError.boolFailed ∨
  e = PyError.indexErr ∨ e = PyError.attrErr ∨ e = PyError.externalErr

theorem builderError_allowed {e : PyError} (h : builderError e)
    (hown : ownRaiseOrigin e.origin = true) : allowedPyError e := by
  rcases h with rfl | rfl | rfl | rfl | rfl
  · exact Or.inl ⟨rfl, rfl⟩
  · exact Or.inr ⟨rfl, rfl⟩
  · exact absurd hown (by decide)
  · exact absurd hown (by decide)
  · exact absurd hown (by decide)

theorem sparByParameters_errs {K : Kernel} {label : String} {u1 v1 u2 v2 : ℚ}
    {wingA : PyObj K.Wing} {basisA : PyObj (BasisArg K)} {e : PyError}
    (h : SparByParameters K label u1 v1 u2 v2 wingA basisA = Except.error e) :
    builderError e := by
  rcases pyBind_error_elim h with h | ⟨wing, _, h⟩
  · exact Or.inl (validateReq_error h)
  rcases pyBind_error_elim h with h | ⟨b?, _, h⟩
  · exact Or.inl (validateOpt_error h)
  rcases pyBind_error_elim h with h | ⟨sh, _, h⟩
  · exact Or.inr (Or.inl (commonRaw_error h))
  · exact Except.noConfusion h

theorem ribByParameters_errs {K : Kernel} {label : String} {u1 v1 u2 v2 : ℚ}
    {wingA : PyObj K.Wing} {basisA : PyObj (BasisArg K)} {e : PyError}
    (h : RibByParameters K label u1 v1 u2 v2 wingA basisA = Except.error e) :
    builderError e := by
  rcases pyBind_error_elim h with h | ⟨wing, _, h⟩
  · exact Or.inl (validateReq_error h)
  rcases pyBind_error_elim h with h | ⟨b?, _, h⟩
  · exact Or.inl (validateOpt_error h)
  rcases pyBind_error_elim h with h | ⟨sh, _, h⟩
  · exact Or.inr (Or.inl (commonRaw_error h))
  · exact Except.noConfusion h

theorem sparByPoints_errs {K : Kernel} {label : String}
    {p1A p2A : PyObj K.Point} {wingA : PyObj K.Wing}
    {basisA : PyObj (BasisArg K)} {e : PyError}
    (h : SparByPoints K label p1A p2A wingA basisA = Except.error e) :
    builderError e := by
  rcases pyBind_error_elim h with h | ⟨p1, _, h⟩
  · exact Or.inl (validateReq_error h)
  rcases pyBind_error_elim h with h | ⟨p2, _, h⟩
  · exact Or.inl (validateReq_error h)
  cases wingA with
  | val wing => exact sparByParameters_errs h
  | wrongType => injection h with h; exact Or.inr (Or.inr (Or.inr (Or.inl h.symm)))
  | pyNone => injection h with h; exact Or.inr (Or.inr (Or.inr (Or.inl h.symm)))

theorem ribByPoints_errs {K : Kernel} {label : String}
    {p1A p2A : PyObj K.Point} {wingA : PyObj K.Wing}
    {basisA : PyObj (BasisArg K)} {e : PyError}
    (h : RibByPoints K label p1A p2A wingA basisA = Except.error e) :
    builderError e := by
  rcases pyBind_error_elim h with h | ⟨p1, _, h⟩
  · exact Or.inl (validateReq_error h)
  rcases pyBind_error_elim h with h | ⟨p2, _, h⟩
  · exact Or.inl (validateReq_error h)
  cases wingA with
  | val wing => exact ribByParameters_errs h
  | wrongType => injection h with h; exact Or.inr (Or.inr (Or.inr (Or.inl h.symm)))
  | pyNone => injection h with h; exact Or.inr (Or.inr (Or.inr (Or.inl h.symm)))

theorem sparBySurface_errs {K : Kernel} {label : String}
    {srfA : PyObj K.Surface} {wingA : PyObj K.Wing} {e : PyError}
    (h : SparBySurface K label srfA wingA = Except.error e) :
    builderError e := by
  rcases pyBind_error_elim h with h | ⟨srf, _, h⟩
  · exact Or.inl (validateReq_error h)
  rcases pyBind_error_elim h with h | ⟨wing, _, h⟩
  · exact Or.inl (validateReq_error h)
  rcases pyBind_error_elim h with h | ⟨sh, _, h⟩
  · exact Or.inr (Or.inl (commonRaw_error h))
  · exact Except.noConfusion h

theorem ribBySurface_errs {K : Kernel} {label : String}
    {srfA : PyObj K.Surface} {wingA : PyObj K.Wing} {e : PyError}
    (h : RibBySurface K label srfA wingA = Except.error e) :
    builderError e := by
  rcases pyBind_error_elim h with h | ⟨srf, _, h⟩
  · exact Or.inl (validateReq_error h)
  rcases pyBind_error_elim h with h | ⟨wing, _, h⟩
  · exact Or.inl (validateReq_error h)
  rcases pyBind_error_elim h with h | ⟨sh, _, h⟩
  · exact Or.inr (Or.inl (commonRaw_error h))
  · exact Except.noConfusion h

theorem basisToShape_error {K : Kernel} {b? : Option (BasisArg K)} {e : PyError}
    (h : basisToShape K b? = Except.error e) : e = PyError.externalErr := by
  rcases b? with _ | b
  · injection h with h; exact h.symm
  · rcases b with s | sh <;> exact Except.noConfusion h

theorem firstVertex_error {K : Kernel} {sh : K.Shape} {e : PyError}
    (h : firstVertex K sh = Except.error e) : e = PyError.indexErr := by
  unfold firstVertex at h
  cases hv : K.get_vertices sh with
  | nil => rw [hv] at h; injection h with h; exact h.symm
  | cons v vs => rw [hv] at h; exact Except.noConfusion h

theorem sparBetweenShapes_errs {K : Kernel} {label : String}
    {shape1A shape2A : PyObj K.Shape} {wingA : PyObj K.Wing}
    {basisA : PyObj (BasisArg K)} {e : PyError}
    (h : SparBetweenShapes K label shape1A shape2A wingA basisA =
      Except.error e) : builderError e := by
  rcases pyBind_error_elim h with h | ⟨s1, _, h⟩
  · exact Or.inl (validateReq_error h)
  rcases pyBind_error_elim h with h | ⟨s2, _, h⟩
  · exact Or.inl (validateReq_error h)
  rcases pyBind_error_elim h with h | ⟨wing, _, h⟩
  · exact Or.inl (validateReq_error h)
  rcases pyBind_error_elim h with h | ⟨b?, _, h⟩
  · exact Or.inl (validateOpt_error h)
  rcases pyBind_error_elim h with h | ⟨bsh, _, h⟩
  · exact Or.inr (Or.inr (Or.inr (Or.inr (basisToShape_error h))))
  rcases pyBind_error_elim h with h | ⟨v1, _, h⟩
  · exact Or.inr (Or.inr (Or.inl (firstVertex_error h)))
  rcases pyBind_error_elim h with h | ⟨v2, _, h⟩
  · exact Or.inr (Or.inr (Or.inl (firstVertex_error h)))
  · exact sparByPoints_errs h

theorem ribBetweenShapes_errs {K : Kernel} {label : String}
    {shape1A shape2A : PyObj K.Shape} {wingA : PyObj K.Wing}
    {basisA : PyObj (BasisArg K)} {e : PyError}
    (h : RibBetweenShapes K label shape1A shape2A wingA basisA =
      Except.error e) : builderError e := by
  rcases pyBind_error_elim h with h | ⟨s1, _, h⟩
  · exact Or.inl (validateReq_error h)
  rcases pyBind_error_elim h with h | ⟨s2, _, h⟩
  · exact Or.inl (validateReq_error h)
  rcases pyBind_error_elim h with h | ⟨wing, _, h⟩
  · exact Or.inl (validateReq_error h)
  rcases pyBind_error_elim h with h | ⟨b?, _, h⟩
  · exact Or.inl (validateOpt_error h)
  rcases pyBind_error_elim h with h | ⟨bsh, _, h⟩
  · exact Or.inr (Or.inr (Or.inr (Or.inr (basisToShape_error h))))
  rcases pyBind_error_elim h with h | ⟨v1, _, h⟩
  · exact Or.inr (Or.inr (Or.inl (firstVertex_error h)))
  rcases pyBind_error_elim h with h | ⟨v2, _, h⟩
  · exact Or.inr (Or.inr (Or.inl (firstVertex_error h)))
  · exact ribByPoints_errs h

theorem bulkheadBySurface_errs {K : Kernel} {label : String}
    {srfA : PyObj K.Surface} {fuselageA : PyObj K.Fuselage} {e : PyError}
    (h : BulkheadBySurface K label srfA fuselageA = Except.error e) :
    builderError e := by
  rcases pyBind_error_elim h with h | ⟨srf, _, h⟩
  · exact Or.inl (validateReq_error h)
  rcases pyBind_error_elim h with h | ⟨fus, _, h⟩
  · exact Or.inl (validateReq_error h)
  rcases pyBind_error_elim h with h | ⟨sh, _, h⟩
  · exact Or.inr (Or.inl (commonRaw_error h))
  · exact Except.noConfusion h

theorem floorBySurface_errs {K : Kernel} {label : String}
    {srfA : PyObj K.Surface} {fuselageA : PyObj K.Fuselage} {e : PyError}
    (h : FloorBySurface K label srfA fuselageA = Except.error e) :
    builderError e := by
  rcases pyBind_error_elim h with h | ⟨srf, _, h⟩
  · exact Or.inl (validateReq_error h)
  rcases pyBind_error_elim h with h | ⟨fus, _, h⟩
  · exact Or.inl (validateReq_error h)
  rcases pyBind_error_elim h with h | ⟨sh, _, h⟩
  · exact Or.inr (Or.inl (commonRaw_error h))
  · exact Except.noConfusion h

theorem frameByPlane_errs {K : Kernel} {label : String}
    {plnA : PyObj K.Plane} {fuselageA : PyObj K.Fuselage} {height : ℚ}
    {e : PyError}
    (h : FrameByPlane K label plnA fuselageA height = Except.error e) :
    builderError e := by
  rcases pyBind_error_elim h with h | ⟨pln, _, h⟩
  · exact Or.inl (validateReq_error h)
  rcases pyBind_error_elim h with h | ⟨fus, _, h⟩
  · exact Or.inl (validateReq_error h)
  rcases pyBind_error_elim h with h | ⟨shape0, _, h⟩
  · exact Or.inr (Or.inl (commonRaw_error h))
  rcases pyBind_error_elim h with h | ⟨outer_wire, _, h⟩
  · exact Or.inr (Or.inr (Or.inl (outerClosedWire_error h)))
  rcases pyBind_error_elim h with h | ⟨shape1, _, h⟩
  · exact Or.inr (Or.inl (cutRaw_error h))
  · exact Except.noConfusion h

theorem skinBySolid_errs {K : Kernel} {label : String}
    {solidA : PyObj K.Solid} {copy : Bool} {e : PyError}
    (h : SkinBySolid K label solidA copy = Except.error e) :
    builderError e := by
  rcases pyBind_error_elim h with h | ⟨solid, _, h⟩
  · exact Or.inl (validateReq_error h)
  · exact Except.noConfusion h

theorem skinByBody_errs {K : Kernel} {label : String}
    {bodyA : PyObj K.Body} {copy : Bool} {e : PyError}
    (h : SkinByBody K label bodyA copy = Except.error e) :
    builderError e := by
  rcases pyBind_error_elim h with h | ⟨body, _, h⟩
  · exact Or.inl (validateReq_error h)
  · exact skinBySolid_errs h

theorem curvePartByShape_errs {K : Kernel} {label : String}
    {shapeA : PyObj (CurveShapeArg K)} {crefA : PyObj K.Curve} {e : PyError}
    (h : CurvePartByShape K label shapeA crefA = Except.error e) :
    builderError e := by
  rcases pyBind_error_elim h with h | ⟨sa, _, h⟩
  · exact Or.inl (validateReq_error h)
  rcases pyBind_error_elim h with h | ⟨c?, _, h⟩
  · exact Or.inl (validateOpt_error h)
  · exact Except.noConfusion h

theorem beamByShape_errs {K : Kernel} {label : String}
    {shapeA : PyObj (CurveShapeArg K)} {crefA : PyObj K.Curve} {e : PyError}
    (h : BeamByShape K label shapeA crefA = Except.error e) :
    builderError e := by
  rcases pyBind_error_elim h with h | ⟨sa, _, h⟩
  · exact Or.inl (validateReq_error h)
  rcases pyBind_error_elim h with h | ⟨c?, _, h⟩
  · exact Or.inl (validateOpt_error h)
  · exact Except.noConfusion h

theorem beamByCurve_errs {K : Kernel} {label : String}
    {crvA : PyObj K.Curve} {e : PyError}
    (h : BeamByCurve K label crvA = Except.error e) : builderError e := by
  rcases pyBind_error_elim h with h | ⟨c, _, h⟩
  · exact Or.inl (validateReq_error h)
  · exact beamByShape_errs h

theorem beamByPoints_errs {K : Kernel} {label : String}
    {p1A p2A : PyObj K.Point} {e : PyError}
    (h : BeamByPoints K label p1A p2A = Except.error e) : builderError e := by
  rcases pyBind_error_elim h with h | ⟨p1, _, h⟩
  · exact Or.inl (validateReq_error h)
  rcases pyBind_error_elim h with h | ⟨p2, _, h⟩
  · exact Or.inl (validateReq_error h)
  · exact beamByCurve_errs h

theorem surfacePartByShape_errs {K : Kernel}
    {shapeA : PyObj (BasisArg K)} {crefA : PyObj K.Curve}
    {srefA : PyObj K.Surface} {e : PyError}
    (h : SurfacePartByShape K shapeA crefA srefA = Except.error e) :
    builderError e := by
  rcases pyBind_error_elim h with h | ⟨sa, _, h⟩
  · exact Or.inl (validateReq_error h)
  rcases pyBind_error_elim h with h | ⟨c?, _, h⟩
  · exact Or.inl (validateOpt_error h)
  rcases pyBind_error_elim h with h | ⟨s?, _, h⟩
  · exact Or.inl (validateOpt_error h)
  · exact Except.noConfusion h

theorem validateAll_error {α : Type} {xs : List (PyObj α)} {e : PyError}
    (h : validateAll xs = Except.error e) : e = PyError.typeValidation := by
  induction xs with
  | nil => exact Except.noConfusion h
  | cons x xs ih =>
    simp only [validateAll] at h
    rcases pyBind_error_elim h with h | ⟨a, _, h⟩
    · exact validateReq_error h
    rcases pyBind_error_elim h with h | ⟨rest, _, h⟩
    · exact ih h
    · exact Except.noConfusion h

theorem partLoop_error {K : Kernel} {β : Type}
    {mk : String → β → Except PyError (PartData K)} {label delim : String}
    {first : Int} {bs : List β} {e : PyError}
    (h : partLoop K mk label delim first bs = Except.error e) :
    ∃ lbl b, mk lbl b = Except.error e := by
  induction bs generalizing first with
  | nil => exact Except.noConfusion h
  | cons b bs ih =>
    simp only [partLoop] at h
    cases hm : mk (label ++ delim ++ toString first) b with
    | error e0 =>
      rw [hm] at h
      injection h with h
      exact ⟨_, b, h ▸ hm⟩
    | ok part =>
      rw [hm] at h
      cases hr : partLoop K mk label delim (first + 1) bs with
      | error e0 =>
        rw [hr] at h
        injection h with h
        exact ih (h ▸ hr)
      | ok pr =>
        obtain ⟨rest, nxt⟩ := pr
        rw [hr] at h
        exact Except.noConfusion h

theorem ribsBetweenPlanesByNumber_errs {K : Kernel} {label : String}
    {pln1A pln2A : PyObj K.Plane} {n : Int} {shape1A shape2A : PyObj K.Shape}
    {wingA : PyObj K.Wing} {d1 d2 : Option ℚ} {first_index : Int}
    {delimiter : String} {e : PyError}
    (h : RibsBetweenPlanesByNumber K label pln1A pln2A n shape1A shape2A
      wingA d1 d2 first_index delimiter = Except.error e) :
    builderError e := by
  rcases pyBind_error_elim h with h | ⟨pln1, _, h⟩
  · exact Or.inl (validateReq_error h)
  rcases pyBind_error_elim h with h | ⟨pln2, _, h⟩
  · exact Or.inl (validateReq_error h)
  rcases pyBind_error_elim h with h | ⟨wing, _, h⟩
  · exact Or.inl (validateReq_error h)
  rcases pyBind_error_elim h with h | ⟨s1, _, h⟩
  · exact Or.inl (validateReq_error h)
  rcases pyBind_error_elim h with h | ⟨s2, _, h⟩
  · exact Or.inl (validateReq_error h)
  rcases pyBind_error_elim h with h | ⟨pr, _, h⟩
  · obtain ⟨lbl, b, hb⟩ := partLoop_error h
    exact ribBetweenShapes_errs hb
  · exact Except.noConfusion h

theorem ribsBetweenPlanesByDistance_errs {K : Kernel} {label : String}
    {pln1A pln2A : PyObj K.Plane} {maxd : ℚ} {shape1A shape2A : PyObj K.Shape}
    {wingA : PyObj K.Wing} {d1 d2 : Option ℚ} {nmin first_index : Int}
    {delimiter : String} {e : PyError}
    (h : RibsBetweenPlanesByDistance K label pln1A pln2A maxd shape1A shape2A
      wingA d1 d2 nmin first_index delimiter = Except.error e) :
    builderError e := by
  rcases pyBind_error_elim h with h | ⟨pln1, _, h⟩
  · exact Or.inl (validateReq_error h)
  rcases pyBind_error_elim h with h | ⟨pln2, _, h⟩
  · exact Or.inl (validateReq_error h)
  rcases pyBind_error_elim h with h | ⟨wing, _, h⟩
  · exact Or.inl (validateReq_error h)
  rcases pyBind_error_elim h with h | ⟨s1, _, h⟩
  · exact Or.inl (validateReq_error h)
  rcases pyBind_error_elim h with h | ⟨s2, _, h⟩
  · exact Or.inl (validateReq_error h)
  rcases pyBind_error_elim h with h | ⟨pr, _, h⟩
  · obtain ⟨lbl, b, hb⟩ := partLoop_error h
    exact ribBetweenShapes_errs hb
  · exact Except.noConfusion h

theorem ribsAlongCurveByNumber_errs {K : Kernel} {label : String}
    {crvA : PyObj K.Curve} {n : Int} {shape1A shape2A : PyObj K.Shape}
    {wingA : PyObj K.Wing} {refPlnA : PyObj K.Plane} {u1 u2 d1 d2 : Option ℚ}
    {first_index : Int} {delimiter : String} {tol : ℚ} {e : PyError}
    (h : RibsAlongCurveByNumber K label crvA n shape1A shape2A wingA refPlnA
      u1 u2 d1 d2 first_index delimiter tol = Except.error e) :
    builderError e := by
  rcases pyBind_error_elim h with h | ⟨crv, _, h⟩
  · exact Or.inl (validateReq_error h)
  rcases pyBind_error_elim h with h | ⟨s1, _, h⟩
  · exact Or.inl (validateReq_error h)
  rcases pyBind_error_elim h with h | ⟨s2, _, h⟩
  · exact Or.inl (validateReq_error h)
  rcases pyBind_error_elim h with h | ⟨wing, _, h⟩
  · exact Or.inl (validateReq_error h)
  rcases pyBind_error_elim h with h | ⟨ref_pln, _, h⟩
  · exact Or.inl (validateOpt_error h)
  rcases pyBind_error_elim h with h | ⟨pr, _, h⟩
  · obtain ⟨lbl, b, hb⟩ := partLoop_error h
    exact ribBetweenShapes_errs hb
  · exact Except.noConfusion h

theorem ribsAlongCurveByDistance_errs {K : Kernel} {label : String}
    {crvA : PyObj K.Curve} {maxd : ℚ} {shape1A shape2A : PyObj K.Shape}
    {wingA : PyObj K.Wing} {refPlnA : PyObj K.Plane} {u1 u2 d1 d2 : Option ℚ}
    {nmin first_index : Int} {delimiter : String} {tol : ℚ} {e : PyError}
    (h : RibsAlongCurveByDistance K label crvA maxd shape1A shape2A wingA
      refPlnA u1 u2 d1 d2 nmin first_index delimiter tol = Except.error e) :
    builderError e := by
  rcases pyBind_error_elim h with h | ⟨crv, _, h⟩
  · exact Or.inl (validateReq_error h)
  rcases pyBind_error_elim h with h | ⟨s1, _, h⟩
  · exact Or.inl (validateReq_error h)
  rcases pyBind_error_elim h with h | ⟨s2, _, h⟩
  · exact Or.inl (validateReq_error h)
  rcases pyBind_error_elim h with h | ⟨wing, _, h⟩
  · exact Or.inl (validateReq_error h)
  rcases pyBind_error_elim h with h | ⟨ref_pln, _, h⟩
  · exact Or.inl (validateOpt_error h)
  rcases pyBind_error_elim h with h | ⟨pr, _, h⟩
  · obtain ⟨lbl, b, hb⟩ := partLoop_error h
    exact ribBetweenShapes_errs hb
  · exact Except.noConfusion h

theorem framesBetweenPlanesByNumber_errs {K : Kernel} {label : String}
    {pln1A pln2A : PyObj K.Plane} {n : Int} {fuselageA : PyObj K.Fuselage}
    {height : ℚ} {d1 d2 : Option ℚ} {first_index : Int} {delimiter : String}
    {e : PyError}
    (h : FramesBetweenPlanesByNumber K label pln1A pln2A n fuselageA height
      d1 d2 first_index delimiter = Except.error e) :
    builderError e := by
  rcases pyBind_error_elim h with h | ⟨pln1, _, h⟩
  · exact Or.inl (validateReq_error h)
  rcases pyBind_error_elim h with h | ⟨pln2, _, h⟩
  · exact Or.inl (validateReq_error h)
  rcases pyBind_error_elim h with h | ⟨fus, _, h⟩
  · exact Or.inl (validateReq_error h)
  rcases pyBind_error_elim h with h | ⟨pr, _, h⟩
  · obtain ⟨lbl, b, hb⟩ := partLoop_error h
    exact frameByPlane_errs hb
  · exact Except.noConfusion h

theorem framesBetweenPlanesByDistance_errs {K : Kernel} {label : String}
    {pln1A pln2A : PyObj K.Plane} {maxd : ℚ} {fuselageA : PyObj K.Fuselage}
    {height : ℚ} {d1 d2 : Option ℚ} {nmin first_index : Int}
    {delimiter : String} {e : PyError}
    (h : FramesBetweenPlanesByDistance K label pln1A pln2A maxd fuselageA
      height d1 d2 nmin first_index delimiter = Except.error e) :
    builderError e := by
  rcases pyBind_error_elim h with h | ⟨pln1, _, h⟩
  · exact Or.inl (validateReq_error h)
  rcases pyBind_error_elim h with h | ⟨pln2, _, h⟩
  · exact Or.inl (validateReq_error h)
  rcases pyBind_error_elim h with h | ⟨fus, _, h⟩
  · exact Or.inl (validateReq_error h)
  rcases pyBind_error_elim h with h | ⟨pr, _, h⟩
  · obtain ⟨lbl, b, hb⟩ := partLoop_error h
    exact frameByPlane_errs hb
  · exact Except.noConfusion h

theorem framesByPlanes_errs {K : Kernel} {label : String}
    {plnsA : List (PyObj K.Plane)} {fuselageA : PyObj K.Fuselage}
    {height : ℚ} {first_index : Int} {delimiter : String} {e : PyError}
    (h : FramesByPlanes K label plnsA fuselageA height first_index delimiter =
      Except.error e) : builderError e := by
  rcases pyBind_error_elim h with h | ⟨plns, _, h⟩
  · exact Or.inl (validateAll_error h)
  rcases pyBind_error_elim h with h | ⟨fus, _, h⟩
  · exact Or.inl (validateReq_error h)
  rcases pyBind_error_elim h with h | ⟨pr, _, h⟩
  · obtain ⟨lbl, b, hb⟩ := partLoop_error h
    exact frameByPlane_errs hb
  · exact Except.noConfusion h

theorem sparByParameters_label {K : Kernel} {label : String} {u1 v1 u2 v2 : ℚ}
    {wingA : PyObj K.Wing} {basisA : PyObj (BasisArg K)} {part : PartData K}
    (h : SparByParameters K label u1 v1 u2 v2 wingA basisA = Except.ok part) :
    part.label = label := by
  rcases pyBind_ok_elim h with ⟨wing, _, h⟩
  rcases pyBind_ok_elim h with ⟨b?, _, h⟩
  rcases pyBind_ok_elim h with ⟨sh, _, h⟩
  injection h with h
  rw [← h]

theorem ribByParameters_label {K : Kernel} {label : String} {u1 v1 u2 v2 : ℚ}
    {wingA : PyObj K.Wing} {basisA : PyObj (BasisArg K)} {part : PartData K}
    (h : RibByParameters K label u1 v1 u2 v2 wingA basisA = Except.ok part) :
    part.label = label := by
  rcases pyBind_ok_elim h with ⟨wing, _, h⟩
  rcases pyBind_ok_elim h with ⟨b?, _, h⟩
  rcases pyBind_ok_elim h with ⟨sh, _, h⟩
  injection h with h
  rw [← h]

theorem ribByPoints_label {K : Kernel} {label : String}
    {p1A p2A : PyObj K.Point} {wingA : PyObj K.Wing}
    {basisA : PyObj (BasisArg K)} {part : PartData K}
    (h : RibByPoints K label p1A p2A wingA basisA = Except.ok part) :
    part.label = label := by
  rcases pyBind_ok_elim h with ⟨p1, _, h⟩
  rcases pyBind_ok_elim h with ⟨p2, _, h⟩
  cases wingA with
  | val wing => exact ribByParameters_label h
  | wrongType => exact Except.noConfusion h
  | pyNone => exact Except.noConfusion h

theorem ribBetweenShapes_label {K : Kernel} {label : String}
    {shape1A shape2A : PyObj K.Shape} {wingA : PyObj K.Wing}
    {basisA : PyObj (BasisArg K)} {part : PartData K}
    (h : RibBetweenShapes K label shape1A shape2A wingA basisA =
      Except.ok part) : part.label = label := by
  rcases pyBind_ok_elim h with ⟨s1, _, h⟩
  rcases pyBind_ok_elim h with ⟨s2, _, h⟩
  rcases pyBind_ok_elim h with ⟨wing, _, h⟩
  rcases pyBind_ok_elim h with ⟨b?, _, h⟩
  rcases pyBind_ok_elim h with ⟨bsh, _, h⟩
  rcases pyBind_ok_elim h with ⟨v1, _, h⟩
  rcases pyBind_ok_elim h with ⟨v2, _, h⟩
  exact ribByPoints_label h

theorem frameByPlane_label {K : Kernel} {label : String}
    {plnA : PyObj K.Plane} {fuselageA : PyObj K.Fuselage} {height : ℚ}
    {part : PartData K}
    (h : FrameByPlane K label plnA fuselageA height = Except.ok part) :
    part.label = label := by
  rcases pyBind_ok_elim h with ⟨pln, _, h⟩
  rcases pyBind_ok_elim h with ⟨fus, _, h⟩
  rcases pyBind_ok_elim h with ⟨shape0, _, h⟩
  rcases pyBind_ok_elim h with ⟨outer_wire, _, h⟩
  rcases pyBind_ok_elim h with ⟨shape1, _, h⟩
  injection h with h
  rw [← h]

/-- The loop invariant of the multi-part builders: on success, the final
`first_index` is the initial one plus the number of created parts, and the
k-th created part is labelled `label + delimiter + str(first_index + k)` —
provided the part maker stamps the label it is given onto the part. -/
theorem partLoop_ok {K : Kernel} {β : Type}
    {mk : String → β → Except PyError (PartData K)}
    (hmk : ∀ lbl b part, mk lbl b = Except.ok part → part.label = lbl)
    (label delim : String) :
    ∀ (bs : List β) (first : Int) (parts : List (PartData K)) (nxt : Int),
      partLoop K mk label delim first bs = Except.ok (parts, nxt) →
      nxt = first + parts.length ∧
      ∀ k (hk : k < parts.length),
        (parts.get ⟨k, hk⟩).label = label ++ delim ++ toString (first + (k : Int)) := by
  intro bs
  induction bs with
  | nil =>
    intro first parts nxt h
    simp only [partLoop] at h
    injection h with h
    rw [Prod.mk.injEq] at h
    obtain ⟨h1, h2⟩ := h
    subst h1
    subst h2
    refine ⟨by simp, ?_⟩
    intro k hk
    exact absurd hk (by simp)
  | cons b bs ih =>
    intro first parts nxt h
    simp only [partLoop] at h
    cases hm : mk (label ++ delim ++ toString first) b with
    | error e => rw [hm] at h; exact Except.noConfusion h
    | ok part =>
      rw [hm] at h
      cases hr : partLoop K mk label delim (first + 1) bs with
      | error e => rw [hr] at h; exact Except.noConfusion h
      | ok pr =>
        obtain ⟨rest, nx2⟩ := pr
        rw [hr] at h
        injection h with h
        rw [Prod.mk.injEq] at h
        obtain ⟨h1, h2⟩ := h
        subst h1
        subst h2
        obtain ⟨ihn, ihl⟩ := ih (first + 1) rest nx2 hr
        constructor
        · rw [ihn]
          simp only [List.length_cons]
          push_cast
          ring
        · intro k hk
          cases k with
          | zero =>
            have h0 : first + ((0 : Nat) : Int) = first := by simp
            rw [show ((part :: rest).get ⟨0, hk⟩) = part from rfl, h0]
            exact hmk _ _ _ hm
          | succ k =>
            have hk2 : k < rest.length := by
              simpa using Nat.lt_of_succ_lt_succ hk
            have harith : first + ((k + 1 : Nat) : Int) = (first + 1) + (k : Int) := by
              push_cast
              ring
            rw [show ((part :: rest).get ⟨k + 1, hk⟩) = rest.get ⟨k, hk2⟩ from rfl,
              harith]
            exact ihl k hk2

theorem dictGet_insert_self {β : Type} (m : List (String × β)) (k : String)
    (v : β) : dictGet (dictInsert m k v) k = some v := by
  induction m with
  | nil => simp [dictInsert, dictGet]
  | cons p ps ih =>
    by_cases hp : p.1 = k
    · simp [dictInsert, hp, dictGet]
    · simp [dictInsert, hp, dictGet, ih]

theorem dictGet_insert_ne {β : Type} (m : List (String × β)) {k q : String}
    (v : β) (hne : q ≠ k) : dictGet (dictInsert m k v) q = dictGet m q := by
  induction m with
  | nil =>
    show (if k = q then some v else dictGet [] q) = none
    rw [if_neg (Ne.symm hne)]
    rfl
  | cons p ps ih =>
    by_cases hp : p.1 = k
    · subst hp
      show dictGet (if p.1 = p.1 then (p.1, v) :: ps else p :: dictInsert ps p.1 v) q = _
      rw [if_pos rfl]
      show (if p.1 = q then some v else dictGet ps q) =
        if p.1 = q then some p.2 else dictGet ps q
      rw [if_neg (Ne.symm hne), if_neg (Ne.symm hne)]
    · simp [dictInsert, hp, dictGet, ih]

theorem dictGet_update_not_mem {β : Type} {news : List (String × β)}
    {k : String} (h : k ∉ news.map Prod.fst) :
    ∀ m, dictGet (dictUpdate m news) k = dictGet m k := by
  induction news with
  | nil => intro m; rfl
  | cons p ps ih =>
    intro m
    simp only [List.map_cons, List.mem_cons] at h
    push_neg at h
    simp only [dictUpdate]
    rw [ih h.2 (dictInsert m p.1 p.2)]
    exact dictGet_insert_ne m p.2 h.1

theorem dictGet_update_mem {β : Type} {news : List (String × β)}
    {k : String} {v : β} (hnd : (news.map Prod.fst).Nodup)
    (hmem : (k, v) ∈ news) :
    ∀ m, dictGet (dictUpdate m news) k = some v := by
  induction news with
  | nil => exact absurd hmem (List.not_mem_nil _)
  | cons p ps ih =>
    intro m
    simp only [List.map_cons, List.nodup_cons] at hnd
    simp only [dictUpdate]
    rcases List.mem_cons.mp hmem with hp | hp
    · have hk : p.1 = k := by rw [← hp]
      have hv : p.2 = v := by rw [← hp]
      have hnot : k ∉ ps.map Prod.fst := by rw [← hk]; exact hnd.1
      rw [dictGet_update_not_mem hnot (dictInsert m p.1 p.2), hk, hv]
      exact dictGet_insert_self m k v
    · exact ih hnd.2 hp (dictInsert m p.1 p.2)

theorem dictGet_not_mem {β : Type} {m : List (String × β)} {k : String}
    (h : k ∉ m.map Prod.fst) : dictGet m k = none := by
  induction m with
  | nil => rfl
  | cons p ps ih =>
    simp only [List.map_cons, List.mem_cons] at h
    push_neg at h
    show (if p.1 = k then some p.2 else dictGet ps k) = none
    rw [if_neg (Ne.symm h.1)]
    exact ih h.2

/- ----------------------------------------------------------------------
Claim theorems.
---------------------------------------------------------------------- -/

/-- C7: the viewer widget forwards events to camera operations without
adding logic: key 'F' (code 70) invokes `FitAll`, 'I' (73) the isometric
view, 'T' (84) the top view, any other key has no effect and raises no
exception (the `KeyError` is caught; `keyPressEvent` is total and emits no
call); every wheel event with positive delta sets zoom factor 1.5 and any
other delta sets 0.75. -/
theorem c7_viewer_event_forwarding :
    occView.keyPressEvent 70 = [ViewCall.fitAll] ∧
    occView.keyPressEvent 73 = [ViewCall.setProj V3dOrientation.xposYposZpos] ∧
    occView.keyPressEvent 84 = [ViewCall.setProj V3dOrientation.zpos] ∧
    (∀ k : Nat, k ≠ 70 → k ≠ 73 → k ≠ 84 → occView.keyPressEvent k = []) ∧
    (∀ delta : Int, 0 < delta →
      occView.wheelEvent delta = [ViewCall.setZoom 1.5]) ∧
    (∀ delta : Int, ¬ 0 < delta →
      occView.wheelEvent delta = [ViewCall.setZoom 0.75]) := by
  refine ⟨rfl, rfl, rfl, ?_, ?_, ?_⟩
  · intro k h70 h73 h84
    simp [occView.keyPressEvent, occView.keymap, List.find?,
      Ne.symm h70, Ne.symm h73, Ne.symm h84]
  · intro delta hd
    simp [occView.wheelEvent, hd]
  · intro delta hd
    simp [occView.wheelEvent, hd]

/-- C7 witness: concrete events — an unmapped key ('A' = 65) emits nothing,
a positive wheel delta zooms by 1.5, a non-positive one by 0.75. -/
theorem c7_witness :
    occView.keyPressEvent 65 = [] ∧
    occView.wheelEvent 120 = [ViewCall.setZoom 1.5] ∧
    occView.wheelEvent (-120) = [ViewCall.setZoom 0.75] :=
  ⟨c7_viewer_event_forwarding.2.2.2.1 65 (by decide) (by decide) (by decide),
   c7_viewer_event_forwarding.2.2.2.2.1 120 (by decide),
   c7_viewer_event_forwarding.2.2.2.2.2 (-120) (by decide)⟩

/-- C8 counterexample: the claim "for every non-negative inputs each stored
component lies in [0, 1]" fails at `set_color(300, 0, 0)` — the stored red
component is `300 / 255 = 20/17 > 1`, because the code divides by 255 but
never clamps. -/
theorem c8_counterexample :
    (0 : ℚ) ≤ 300 ∧
    ((ViewableItem.init KTest 0 0 0 0).set_color 300 0 0).color.1 = 20 / 17 ∧
    ¬ ((ViewableItem.init KTest 0 0 0 0).set_color 300 0 0).color.1 ≤ 1 := by
  refine ⟨by norm_num, ?_, ?_⟩
  · show (if (300 : ℚ) > 1 then (300 : ℚ) / 255 else 300) = 20 / 17
    rw [if_pos (by norm_num)]
    norm_num
  · show ¬ (if (300 : ℚ) > 1 then (300 : ℚ) / 255 else 300) ≤ 1
    rw [if_pos (by norm_num)]
    norm_num

/-- C8 (amended): for inputs with `0 ≤ c ≤ 255` (not merely non-negative),
each component stored by `set_color` — on `ViewableItem` and on the
monkey-patched `TopoDS_Shape` alike — lies in [0, 1]; a component at most 1
is stored unchanged and a component greater than 1 is divided by 255. -/
theorem c8_set_color_amended {K : Kernel} (selfV : ViewableItem K)
    (selfT : TopoShapeAttrs K) (r g b : ℚ)
    (hr0 : 0 ≤ r) (hr1 : r ≤ 255) (hg0 : 0 ≤ g) (hg1 : g ≤ 255)
    (hb0 : 0 ≤ b) (hb1 : b ≤ 255) :
    (0 ≤ (selfV.set_color r g b).color.1 ∧ (selfV.set_color r g b).color.1 ≤ 1) ∧
    (0 ≤ (selfV.set_color r g b).color.2.1 ∧ (selfV.set_color r g b).color.2.1 ≤ 1) ∧
    (0 ≤ (selfV.set_color r g b).color.2.2 ∧ (selfV.set_color r g b).color.2.2 ≤ 1) ∧
    (selfT.set_color r g b).color = some ((selfV.set_color r g b).color) ∧
    (r ≤ 1 → (selfV.set_color r g b).color.1 = r) ∧
    (1 < r → (selfV.set_color r g b).color.1 = r / 255) := by
  have hcomp : ∀ c : ℚ, 0 ≤ c → c ≤ 255 →
      0 ≤ (if c > 1 then c / 255 else c) ∧ (if c > 1 then c / 255 else c) ≤ 1 := by
    intro c h0 h1
    by_cases hc : c > 1
    · rw [if_pos hc]
      constructor
      · positivity
      · rw [div_le_one (by norm_num)]
        exact h1
    · rw [if_neg hc]
      exact ⟨h0, le_of_not_lt hc⟩
  refine ⟨hcomp r hr0 hr1, hcomp g hg0 hg1, hcomp b hb0 hb1, rfl, ?_, ?_⟩
  · intro h
    show (if r > 1 then r / 255 else r) = r
    rw [if_neg (not_lt.mpr h)]
  · intro h
    show (if r > 1 then r / 255 else r) = r / 255
    rw [if_pos h]

/-- C8 witness: at `(r, g, b) = (1/2, 2, 255)` the stored color is
`(1/2, 2/255, 1)` — all components in [0, 1], the small one unchanged. -/
theorem c8_witness :
    ((ViewableItem.init KTest 0 0 0 0).set_color (1/2) 2 255).color.1 ≤ 1 ∧
    ((ViewableItem.init KTest 0 0 0 0).set_color (1/2) 2 255).color.1 = 1/2 ∧
    ((TopoShapeAttrs.init KTest 0).set_color (1/2) 2 255).color =
      some (((ViewableItem.init KTest 0 0 0 0).set_color (1/2) 2 255).color) :=
  ⟨(c8_set_color_amended (ViewableItem.init KTest 0 0 0 0)
      (TopoShapeAttrs.init KTest 0) (1/2) 2 255 (by norm_num) (by norm_num)
      (by norm_num) (by norm_num) (by norm_num) (by norm_num)).1.2,
   (c8_set_color_amended (ViewableItem.init KTest 0 0 0 0)
      (TopoShapeAttrs.init KTest 0) (1/2) 2 255 (by norm_num) (by norm_num)
      (by norm_num) (by norm_num) (by norm_num) (by norm_num)).2.2.2.2.1
      (by norm_num),
   (c8_set_color_amended (ViewableItem.init KTest 0 0 0 0)
      (TopoShapeAttrs.init KTest 0) (1/2) 2 255 (by norm_num) (by norm_num)
      (by norm_num) (by norm_num) (by norm_num) (by norm_num)).2.2.2.1⟩

/-- C10: `get_mirrored` (on `ViewableItem` and on the monkey-patched
`TopoDS_Shape`) never raises — both models are total functions into
`Option` — and: it returns `None` in the default state after
initialization (mirror unset), returns `None` exactly when the kernel
transform builder reports not done, and otherwise returns the transformed
shape (the result is precisely the kernel's optional transform result). -/
theorem c10_get_mirrored {K : Kernel} (itemV : ViewableItem K)
    (itemT : TopoShapeAttrs K) (sh : K.Shape) (r g b : ℚ) :
    (ViewableItem.init K sh r g b).get_mirrored = none ∧
    (TopoShapeAttrs.init K sh).get_mirrored = none ∧
    (itemV.mirror = none → itemV.get_mirrored = none) ∧
    (∀ pln, itemV.mirror = some pln →
      itemV.get_mirrored = K.transformShape itemV.shape (K.makeMirror pln)) ∧
    (itemT.mirror = none → itemT.get_mirrored = none) ∧
    (∀ pln, itemT.mirror = some pln →
      itemT.get_mirrored = K.transformShape itemT.shape (K.makeMirror pln)) := by
  refine ⟨rfl, rfl, ?_, ?_, ?_, ?_⟩
  · intro h
    simp [ViewableItem.get_mirrored, h]
  · intro pln h
    simp only [ViewableItem.get_mirrored, h]
    cases ht : K.transformShape itemV.shape (K.makeMirror pln) <;> simp [ht]
  · intro h
    simp [TopoShapeAttrs.get_mirrored, h]
  · intro pln h
    simp only [TopoShapeAttrs.get_mirrored, h]
    cases ht : K.transformShape itemT.shape (K.makeMirror pln) <;> simp [ht]

/-- C10 witness: mirrored-shape retrieval on concrete items — `none` in the
default state, the transformed shape once a mirror plane is set and the
builder succeeds (`KTest`), `none` when the builder is not done (`KFail`). -/
theorem c10_witness :
    (ViewableItem.init KTest 0 0 0 0).get_mirrored = none ∧
    ((ViewableItem.init KTest 0 0 0 0).set_mirror 0).get_mirrored = some 0 ∧
    ((ViewableItem.init KFail 0 0 0 0).set_mirror 0).get_mirrored = none ∧
    ((TopoShapeAttrs.init KTest 0).set_mirror 0).get_mirrored = some 0 :=
  ⟨(c10_get_mirrored (ViewableItem.init KTest 0 0 0 0)
      (TopoShapeAttrs.init KTest 0) 0 0 0 0).1,
   ((c10_get_mirrored ((ViewableItem.init KTest 0 0 0 0).set_mirror 0)
      (TopoShapeAttrs.init KTest 0) 0 0 0 0).2.2.2.1 0 rfl).trans rfl,
   ((c10_get_mirrored ((ViewableItem.init KFail 0 0 0 0).set_mirror 0)
      (TopoShapeAttrs.init KFail 0) 0 0 0 0).2.2.2.1 0 rfl).trans rfl,
   ((c10_get_mirrored (ViewableItem.init KTest 0 0 0 0)
      ((TopoShapeAttrs.init KTest 0).set_mirror 0) 0 0 0 0).2.2.2.2.2 0 rfl).trans rfl⟩

/-- C4: the importer stores parsed bodies in a single process-wide mapping
(the class attribute `_bodies`, modelled as the one state value threaded
through the class methods): after a successful `step_file`, every body
parsed from the file is retrievable by name via `get_body`; bodies
previously imported under names not present in the new file remain
retrievable (`dict.update` merges rather than replaces); `get_body` returns
`None` rather than raising for an unknown name; and `clear` empties the
mapping. -/
theorem c4_importer {Body : Type} (st : ImportVSPState Body)
    (parsed : List (String × Body)) (name : String) (body : Body) :
    ((parsed.map Prod.fst).Nodup → (name, body) ∈ parsed →
      ImportVSP.get_body (ImportVSP.step_file st parsed).1 name = some body) ∧
    (name ∉ parsed.map Prod.fst →
      ImportVSP.get_body (ImportVSP.step_file st parsed).1 name =
        ImportVSP.get_body st name) ∧
    (name ∉ st.bodies.map Prod.fst → ImportVSP.get_body st name = none) ∧
    (ImportVSP.clear st).1.bodies = [] ∧
    (ImportVSP.step_file st parsed).2 = true := by
  refine ⟨?_, ?_, ?_, rfl, rfl⟩
  · intro hnd hmem
    exact dictGet_update_mem hnd hmem st.bodies
  · intro hni
    exact dictGet_update_not_mem hni st.bodies
  · intro h
    exact dictGet_not_mem h

/-- C4 witness: a concrete importer run with `Body := ℕ` — a new file adds
`"fuselage"`, the previously imported `"wing"` survives the merge, an
unknown name yields `none`, and `clear` empties the mapping. -/
theorem c4_witness :
    ImportVSP.get_body
      (ImportVSP.step_file (⟨[("wing", 1)]⟩ : ImportVSPState Nat)
        [("fuselage", 2)]).1 "fuselage" = some 2 ∧
    ImportVSP.get_body
      (ImportVSP.step_file (⟨[("wing", 1)]⟩ : ImportVSPState Nat)
        [("fuselage", 2)]).1 "wing" = some 1 ∧
    ImportVSP.get_body (⟨[("wing", 1)]⟩ : ImportVSPState Nat) "nose" = none ∧
    (ImportVSP.clear (⟨[("wing", 1)]⟩ : ImportVSPState Nat)).1.bodies = [] := by
  refine ⟨(c4_importer _ _ "fuselage" 2).1 (by decide) (by decide), ?_,
    (c4_importer (⟨[("wing", 1)]⟩ : ImportVSPState Nat) [] "nose" 0).2.2.1
      (by decide),
    (c4_importer (⟨[("wing", 1)]⟩ : ImportVSPState Nat) [] "x" 0).2.2.2.1⟩
  rw [(c4_importer (⟨[("wing", 1)]⟩ : ImportVSPState Nat) [("fuselage", 2)]
    "wing" 1).2.1 (by decide)]
  rfl

/-- C2: with no basis shape provided, `SparByParameters(label, u1, v1, u2,
v2, wing)` produces a spar whose reference surface is the plane
`wing.extract_plane(u1, v1, u2, v2)`, whose reference curve is
`wing.extract_curve(u1, v1, u2, v2, basis_shape)` (with `basis_shape` the
face of that plane), and whose shape is assembled (`ShapeByFaces`) from
the faces of the common Boolean between that face and the wing. -/
theorem c2_spar_by_parameters_default_basis {K : Kernel} (label : String)
    (u1 v1 u2 v2 : ℚ) (wing : K.Wing) (shape0 : K.Shape)
    (hc : K.common
        (K.faceBySurface (K.planeSurf (K.extract_plane wing u1 v1 u2 v2)))
        (K.wingShape wing) = some shape0) :
    SparByParameters K label u1 v1 u2 v2 (.val wing) .pyNone =
      Except.ok ⟨label, K.shapeByFaces (K.get_faces shape0),
        some (K.extract_curve wing u1 v1 u2 v2
          (K.faceBySurface (K.planeSurf (K.extract_plane wing u1 v1 u2 v2)))),
        some (K.planeSurf (K.extract_plane wing u1 v1 u2 v2))⟩ := by
  simp only [SparByParameters, validateReq, validateOpt, pyBind, sparBasis,
    commonRaw, hc]

/-- C2 witness: a concrete spar construction on `KTest`. -/
theorem c2_witness :
    SparByParameters KTest "spar" 0 0 1 0 (.val 0) .pyNone =
      Except.ok ⟨"spar", 0, some 0, some 0⟩ :=
  c2_spar_by_parameters_default_basis "spar" 0 0 1 0 0 0 rfl

/-- The frame construction as the specification sentence describes it
(second definition, following the spec's words, for refinement comparison
with `FrameByPlane`): common Boolean of the plane's face with the
fuselage, selection of the longest closed free-boundary wire of the
result, planar offset of that wire inward by `|height|`, and a cut Boolean
removing the inner face from the common shape; reference surface the given
plane. -/
def frameByPlaneSpec (K : Kernel) (label : String) (pln : K.Plane)
    (fus : K.Fuselage) (height : ℚ) : Except PyError (PartData K) :=
  pyBind (commonRaw K (K.faceBySurface (K.planeSurf pln))
      (K.fuselageShape fus)) fun shape0 =>
  let outer_wire := K.longest_shape (K.closed_wires shape0)
  let inner_wire := K.wireByConcat (K.wireByPlanarOffset outer_wire (-|height|))
  let inner_face := K.faceByPlanarWire inner_wire
  pyBind (cutRaw K shape0 inner_face) fun shape1 =>
  .ok ⟨label, K.shapeByFaces (K.get_faces shape1), none, some (K.planeSurf pln)⟩

theorem outerClosedWire_eq_longest {K : Kernel} {ws : List K.Shape}
    (hlong : ∀ w, K.longest_shape [w] = w) (hne : ws ≠ []) :
    outerClosedWire K ws = Except.ok (K.longest_shape ws) := by
  unfold outerClosedWire
  by_cases hl : ws.length > 1
  · rw [if_pos hl]
  · rw [if_neg hl]
    cases ws with
    | nil => exact absurd rfl hne
    | cons w ws2 =>
      cases ws2 with
      | nil => rw [hlong w]
      | cons w2 ws3 =>
        exact absurd (by simp [List.length_cons]) hl

/-- C6: `FrameByPlane(label, pln, fuselage, height)` follows the fixed
kernel-call sequence spelled out by `frameByPlaneSpec` — common Boolean,
longest closed free-boundary wire, planar offset inward by `|height|`,
concatenation, inner face, cut Boolean, reassembly from faces — the
resulting part's reference surface is the given plane, and the whole
construction is invariant under the sign of `height`.  (Kernel
well-formedness assumed: the longest wire of a one-wire list is that wire;
and the common result is assumed to have at least one closed free wire,
the only case in which the code's "take `closed_wires[0]`" branch and the
spec's "take the longest" coincide — on an empty wire list the code raises
`IndexError` instead.) -/
theorem c6_frame_by_plane_sequence {K : Kernel}
    (hlong : ∀ w : K.Shape, K.longest_shape [w] = w)
    (label : String) (pln : K.Plane) (fus : K.Fuselage) (height : ℚ)
    (hcw : ∀ shape0, K.common (K.faceBySurface (K.planeSurf pln))
        (K.fuselageShape fus) = some shape0 → K.closed_wires shape0 ≠ []) :
    FrameByPlane K label (.val pln) (.val fus) height =
      frameByPlaneSpec K label pln fus height ∧
    frameByPlaneSpec K label pln fus height =
      frameByPlaneSpec K label pln fus (-height) ∧
    ∀ part, FrameByPlane K label (.val pln) (.val fus) height = Except.ok part →
      part.sref = some (K.planeSurf pln) := by
  refine ⟨?_, ?_, ?_⟩
  · simp only [FrameByPlane, frameByPlaneSpec, validateReq, pyBind]
    cases hc : K.common (K.faceBySurface (K.planeSurf pln))
        (K.fuselageShape fus) with
    | none => simp [commonRaw, hc]
    | some shape0 =>
      simp only [commonRaw, hc]
      rw [outerClosedWire_eq_longest hlong (hcw shape0 hc)]
  · simp only [frameByPlaneSpec, abs_neg]
  · intro part h
    rcases pyBind_ok_elim h with ⟨pln2, hv1, h⟩
    injection hv1 with hv1
    subst hv1
    rcases pyBind_ok_elim h with ⟨fus2, _, h⟩
    rcases pyBind_ok_elim h with ⟨shape0, _, h⟩
    rcases pyBind_ok_elim h with ⟨outer_wire, _, h⟩
    rcases pyBind_ok_elim h with ⟨shape1, _, h⟩
    injection h with h
    rw [← h]

/-- C6 witness: the sequence evaluated on `KTest` (where `longest_shape` of
a singleton is its element and every common result has a closed wire), at
`height = 2` and `height = -2`. -/
theorem c6_witness :
    FrameByPlane KTest "frame" (.val 0) (.val 0) 2 =
      frameByPlaneSpec KTest "frame" 0 0 2 ∧
    frameByPlaneSpec KTest "frame" 0 0 2 = frameByPlaneSpec KTest "frame" 0 0 (-2) ∧
    FrameByPlane KTest "frame" (.val 0) (.val 0) 2 =
      Except.ok ⟨"frame", 0, none, some 0⟩ :=
  ⟨(c6_frame_by_plane_sequence (fun w => rfl) "frame" 0 0 2
      (fun shape0 _ => List.cons_ne_nil 0 [])).1,
   (c6_frame_by_plane_sequence (fun w => rfl) "frame" 0 0 2
      (fun shape0 _ => List.cons_ne_nil 0 [])).2.1,
   rfl⟩

/-- C3: for every builder performing a kernel Boolean operation
(`SparByParameters`, `RibByParameters`, `SparBySurface`, `RibBySurface`,
`BulkheadBySurface`, `FloorBySurface`, `FrameByPlane`), on type-valid
inputs the constructor raises `RuntimeError('Boolean operation failed.')`
if and only if the kernel reports a performed Boolean operation not done
(for `FrameByPlane`: the common, or — when the common succeeded and an
outer wire was found — the cut).  In the `Except` embedding an `error`
result is the absence of any constructed part, so when the error is raised
no part object is created or stored. -/
theorem c3_boolean_failure_iff {K : Kernel} (label : String)
    (u1 v1 u2 v2 height : ℚ) (wing : K.Wing) (b? : Option (BasisArg K))
    (srf : K.Surface) (fus : K.Fuselage) (pln : K.Plane) :
    (SparByParameters K label u1 v1 u2 v2 (.val wing) (pyOfOpt b?) =
        Except.error PyError.boolFailed ↔
      K.common (sparBasis K wing u1 v1 u2 v2 b?).2 (K.wingShape wing) = none) ∧
    (RibByParameters K label u1 v1 u2 v2 (.val wing) (pyOfOpt b?) =
        Except.error PyError.boolFailed ↔
      K.common (sparBasis K wing u1 v1 u2 v2 b?).2 (K.wingShape wing) = none) ∧
    (SparBySurface K label (.val srf) (.val wing) =
        Except.error PyError.boolFailed ↔
      K.common (K.faceBySurface srf) (K.wingShape wing) = none) ∧
    (RibBySurface K label (.val srf) (.val wing) =
        Except.error PyError.boolFailed ↔
      K.common (K.faceBySurface srf) (K.wingShape wing) = none) ∧
    (BulkheadBySurface K label (.val srf) (.val fus) =
        Except.error PyError.boolFailed ↔
      K.common (K.faceBySurface srf) (K.fuselageShape fus) = none) ∧
    (FloorBySurface K label (.val srf) (.val fus) =
        Except.error PyError.boolFailed ↔
      K.common (K.faceBySurface srf) (K.fuselageShape fus) = none) ∧
    (FrameByPlane K label (.val pln) (.val fus) height =
        Except.error PyError.boolFailed ↔
      (K.common (K.faceBySurface (K.planeSurf pln)) (K.fuselageShape fus) =
          none ∨
        ∃ shape0 outer_wire,
          K.common (K.faceBySurface (K.planeSurf pln)) (K.fuselageShape fus) =
            some shape0 ∧
          outerClosedWire K (K.closed_wires shape0) = Except.ok outer_wire ∧
          K.cut shape0 (K.faceByPlanarWire (K.wireByConcat
            (K.wireByPlanarOffset outer_wire (-|height|)))) = none)) := by
  refine ⟨?_, ?_, ?_, ?_, ?_, ?_, ?_⟩
  · cases hc : K.common (sparBasis K wing u1 v1 u2 v2 b?).2 (K.wingShape wing) with
    | none =>
      simp [SparByParameters, validateReq, validateOpt_pyOfOpt, pyBind,
        commonRaw, hc]
    | some sh =>
      simp [SparByParameters, validateReq, validateOpt_pyOfOpt, pyBind,
        commonRaw, hc]
  · cases hc : K.common (sparBasis K wing u1 v1 u2 v2 b?).2 (K.wingShape wing) with
    | none =>
      simp [RibByParameters, validateReq, validateOpt_pyOfOpt, pyBind,
        commonRaw, hc]
    | some sh =>
      simp [RibByParameters, validateReq, validateOpt_pyOfOpt, pyBind,
        commonRaw, hc]
  · cases hc : K.common (K.faceBySurface srf) (K.wingShape wing) with
    | none => simp [SparBySurface, validateReq, pyBind, commonRaw, hc]
    | some sh => simp [SparBySurface, validateReq, pyBind, commonRaw, hc]
  · cases hc : K.common (K.faceBySurface srf) (K.wingShape wing) with
    | none => simp [RibBySurface, validateReq, pyBind, commonRaw, hc]
    | some sh => simp [RibBySurface, validateReq, pyBind, commonRaw, hc]
  · cases hc : K.common (K.faceBySurface srf) (K.fuselageShape fus) with
    | none => simp [BulkheadBySurface, validateReq, pyBind, commonRaw, hc]
    | some sh => simp [BulkheadBySurface, validateReq, pyBind, commonRaw, hc]
  · cases hc : K.common (K.faceBySurface srf) (K.fuselageShape fus) with
    | none => simp [FloorBySurface, validateReq, pyBind, commonRaw, hc]
    | some sh => simp [FloorBySurface, validateReq, pyBind, commonRaw, hc]
  · cases hc : K.common (K.faceBySurface (K.planeSurf pln))
        (K.fuselageShape fus) with
    | none =>
      simp only [FrameByPlane, validateReq, pyBind, commonRaw, hc]
      simp [hc]
    | some shape0 =>
      simp only [FrameByPlane, validateReq, pyBind, commonRaw, hc]
      cases ho : outerClosedWire K (K.closed_wires shape0) with
      | error e =>
        have he := outerClosedWire_error ho
        subst he
        simp [ho, PyError.indexErr, PyError.boolFailed]
      | ok w =>
        simp only [ho]
        cases hcut : K.cut shape0 (K.faceByPlanarWire (K.wireByConcat
            (K.wireByPlanarOffset w (-|height|)))) with
        | none => simp [cutRaw, hcut, pyBind, ho]
        | some s1 => simp [cutRaw, hcut, pyBind, ho]

/-- C3 witness: on the kernel `KFail`, whose Boolean operations always
report not done, every one of the seven builders raises the runtime error
(no part results); on `KTest`, where they always succeed, `FrameByPlane`
does not raise it. -/
theorem c3_witness :
    SparByParameters KFail "p" 0 0 1 0 (.val 0) (pyOfOpt none) =
      Except.error PyError.boolFailed ∧
    RibByParameters KFail "p" 0 0 1 0 (.val 0) (pyOfOpt none) =
      Except.error PyError.boolFailed ∧
    SparBySurface KFail "p" (.val 0) (.val 0) =
      Except.error PyError.boolFailed ∧
    RibBySurface KFail "p" (.val 0) (.val 0) =
      Except.error PyError.boolFailed ∧
    BulkheadBySurface KFail "p" (.val 0) (.val 0) =
      Except.error PyError.boolFailed ∧
    FloorBySurface KFail "p" (.val 0) (.val 0) =
      Except.error PyError.boolFailed ∧
    FrameByPlane KFail "p" (.val 0) (.val 0) 3 =
      Except.error PyError.boolFailed ∧
    ¬ FrameByPlane KTest "p" (.val 0) (.val 0) 3 =
      Except.error PyError.boolFailed :=
  ⟨(c3_boolean_failure_iff "p" 0 0 1 0 3 0 none 0 0 0).1.mpr rfl,
   (c3_boolean_failure_iff "p" 0 0 1 0 3 0 none 0 0 0).2.1.mpr rfl,
   (c3_boolean_failure_iff "p" 0 0 1 0 3 0 none 0 0 0).2.2.1.mpr rfl,
   (c3_boolean_failure_iff "p" 0 0 1 0 3 0 none 0 0 0).2.2.2.1.mpr rfl,
   (c3_boolean_failure_iff "p" 0 0 1 0 3 0 none 0 0 0).2.2.2.2.1.mpr rfl,
   (c3_boolean_failure_iff "p" 0 0 1 0 3 0 none 0 0 0).2.2.2.2.2.1.mpr rfl,
   (c3_boolean_failure_iff "p" 0 0 1 0 3 0 none 0 0 0).2.2.2.2.2.2.mpr
     (Or.inl rfl),
   fun hcon =>
     Option.noConfusion
       (((c3_boolean_failure_iff (K := KTest) "p" 0 0 1 0 3 0 none 0 0
         0).2.2.2.2.2.2.mp hcon).resolve_right
         (by rintro ⟨s0, w, _, _, hcut⟩; exact Option.noConfusion hcut))⟩

/-- The claim's notion of a shape "derived by Boolean intersection of a
reference shape with the OML": some basis shape exists whose successful
kernel common with the OML operand yields faces from which the shape is
assembled. -/
def derivedByCommon (K : Kernel) (sh target : K.Shape) : Prop :=
  ∃ basis shape0, K.common basis target = some shape0 ∧
    sh = K.shapeByFaces (K.get_faces shape0)

/-- C5 counterexample: on `KTest` — where every Boolean-derived shape is
`0` but the outer shell of a solid is `1` — `SkinBySolid` stores the outer
shell of the solid (shape `1`), which is not derived by any Boolean
intersection with the OML body: `SkinBySolid`/`SkinByBody` perform no
Boolean operation at all (`create.py`, lines 1387-1394). -/
theorem c5_counterexample :
    SkinBySolid KTest "skin" (.val 0) true =
      Except.ok ⟨"skin", 1, none, none⟩ ∧
    ¬ derivedByCommon KTest 1 (KTest.bodySolid 0) := by
  constructor
  · rfl
  · rintro ⟨basis, shape0, h1, h2⟩
    have h1' : some (0 : Nat) = some shape0 := h1
    injection h1' with h1'
    rw [← h1'] at h2
    have h2' : (1 : Nat) = 0 := h2
    exact absurd h2' (by decide)

/-- C5 (amended): the Rib, Spar, Frame, Bulkhead and Floor builders derive
their part shapes from a Boolean common with the wing/fuselage — the
surface/parameter builders assemble the shape directly from the common's
faces, and `FrameByPlane` additionally cuts an offset inner face out of the
common result — but Skin parts are *not* Boolean-derived:
`SkinBySolid`/`SkinByBody` store the outer shell of the solid/body
directly (optionally copied), with no Boolean operation. -/
theorem c5_part_derivation_amended {K : Kernel} (label : String)
    (u1 v1 u2 v2 height : ℚ) (wing : K.Wing) (fus : K.Fuselage)
    (srf : K.Surface) (pln : K.Plane) (solid : K.Solid) (body : K.Body)
    (copy : Bool) (basisA : PyObj (BasisArg K)) :
    (∀ part, SparByParameters K label u1 v1 u2 v2 (.val wing) basisA =
        Except.ok part → derivedByCommon K part.shape (K.wingShape wing)) ∧
    (∀ part, RibByParameters K label u1 v1 u2 v2 (.val wing) basisA =
        Except.ok part → derivedByCommon K part.shape (K.wingShape wing)) ∧
    (∀ part, SparBySurface K label (.val srf) (.val wing) =
        Except.ok part → derivedByCommon K part.shape (K.wingShape wing)) ∧
    (∀ part, RibBySurface K label (.val srf) (.val wing) =
        Except.ok part → derivedByCommon K part.shape (K.wingShape wing)) ∧
    (∀ part, BulkheadBySurface K label (.val srf) (.val fus) =
        Except.ok part → derivedByCommon K part.shape (K.fuselageShape fus)) ∧
    (∀ part, FloorBySurface K label (.val srf) (.val fus) =
        Except.ok part → derivedByCommon K part.shape (K.fuselageShape fus)) ∧
    (∀ part, FrameByPlane K label (.val pln) (.val fus) height =
        Except.ok part →
      ∃ shape0 outer_wire shape1,
        K.common (K.faceBySurface (K.planeSurf pln)) (K.fuselageShape fus) =
          some shape0 ∧
        outerClosedWire K (K.closed_wires shape0) = Except.ok outer_wire ∧
        K.cut shape0 (K.faceByPlanarWire (K.wireByConcat
          (K.wireByPlanarOffset outer_wire (-|height|)))) = some shape1 ∧
        part.shape = K.shapeByFaces (K.get_faces shape1)) ∧
    (∀ part, SkinBySolid K label (.val solid) copy = Except.ok part →
      part.shape = if copy then K.copy_shape (K.outer_shell solid)
        else K.outer_shell solid) ∧
    (∀ part, SkinByBody K label (.val body) copy = Except.ok part →
      part.shape = if copy then K.copy_shape (K.outer_shell (K.bodySolid body))
        else K.outer_shell (K.bodySolid body)) := by
  refine ⟨?_, ?_, ?_, ?_, ?_, ?_, ?_, ?_, ?_⟩
  · intro part h
    rcases pyBind_ok_elim h with ⟨wing2, hv, h⟩
    injection hv with hv
    subst hv
    rcases pyBind_ok_elim h with ⟨b0, _, h⟩
    rcases pyBind_ok_elim h with ⟨sh0, hcr, h⟩
    injection h with h
    rw [← h]
    exact ⟨_, sh0, commonRaw_ok_elim hcr, rfl⟩
  · intro part h
    rcases pyBind_ok_elim h with ⟨wing2, hv, h⟩
    injection hv with hv
    subst hv
    rcases pyBind_ok_elim h with ⟨b0, _, h⟩
    rcases pyBind_ok_elim h with ⟨sh0, hcr, h⟩
    injection h with h
    rw [← h]
    exact ⟨_, sh0, commonRaw_ok_elim hcr, rfl⟩
  · intro part h
    rcases pyBind_ok_elim h with ⟨srf2, _, h⟩
    rcases pyBind_ok_elim h with ⟨wing2, hv, h⟩
    injection hv with hv
    subst hv
    rcases pyBind_ok_elim h with ⟨sh0, hcr, h⟩
    injection h with h
    rw [← h]
    exact ⟨_, sh0, commonRaw_ok_elim hcr, rfl⟩
  · intro part h
    rcases pyBind_ok_elim h with ⟨srf2, _, h⟩
    rcases pyBind_ok_elim h with ⟨wing2, hv, h⟩
    injection hv with hv
    subst hv
    rcases pyBind_ok_elim h with ⟨sh0, hcr, h⟩
    injection h with h
    rw [← h]
    exact ⟨_, sh0, commonRaw_ok_elim hcr, rfl⟩
  · intro part h
    rcases pyBind_ok_elim h with ⟨srf2, _, h⟩
    rcases pyBind_ok_elim h with ⟨fus2, hv, h⟩
    injection hv with hv
    subst hv
    rcases pyBind_ok_elim h with ⟨sh0, hcr, h⟩
    injection h with h
    rw [← h]
    exact ⟨_, sh0, commonRaw_ok_elim hcr, rfl⟩
  · intro part h
    rcases pyBind_ok_elim h with ⟨srf2, _, h⟩
    rcases pyBind_ok_elim h with ⟨fus2, hv, h⟩
    injection hv with hv
    subst hv
    rcases pyBind_ok_elim h with ⟨sh0, hcr, h⟩
    injection h with h
    rw [← h]
    exact ⟨_, sh0, commonRaw_ok_elim hcr, rfl⟩
  · intro part h
    rcases pyBind_ok_elim h with ⟨pln2, hv1, h⟩
    injection hv1 with hv1
    subst hv1
    rcases pyBind_ok_elim h with ⟨fus2, hv2, h⟩
    injection hv2 with hv2
    subst hv2
    rcases pyBind_ok_elim h with ⟨shape0, hcr, h⟩
    rcases pyBind_ok_elim h with ⟨outer_wire, how, h⟩
    rcases pyBind_ok_elim h with ⟨shape1, hcut, h⟩
    injection h with h
    rw [← h]
    exact ⟨shape0, outer_wire, shape1, commonRaw_ok_elim hcr, how,
      cutRaw_ok_elim hcut, rfl⟩
  · intro part h
    rcases pyBind_ok_elim h with ⟨solid2, hv, h⟩
    injection hv with hv
    subst hv
    injection h with h
    rw [← h]
  · intro part h
    rcases pyBind_ok_elim h with ⟨body2, hv, h⟩
    injection hv with hv
    subst hv
    rcases pyBind_ok_elim h with ⟨solid2, hv2, h⟩
    injection hv2 with hv2
    subst hv2
    injection h with h
    rw [← h]

/-- C5 witness: on `KTest`, a spar shape really is Boolean-derived, and the
skin of solid `0` is the (copied) outer shell `1`. -/
theorem c5_witness :
    derivedByCommon KTest 0 (KTest.wingShape 0) ∧
    ((⟨"skin", 1, none, none⟩ : PartData KTest).shape =
      if true then KTest.copy_shape (KTest.outer_shell 0)
      else KTest.outer_shell 0) :=
  ⟨(c5_part_derivation_amended "spar" 0 0 1 0 3 0 0 0 0 0 0 true
      PyObj.pyNone).1 ⟨"spar", 0, some 0, some 0⟩ rfl,
   (c5_part_derivation_amended (K := KTest) "skin" 0 0 1 0 3 0 0 0 0 0 0 true
      PyObj.pyNone).2.2.2.2.2.2.2.1 ⟨"skin", 1, none, none⟩ rfl⟩

/-- C9: for every multi-part builder (`RibsBetweenPlanesByNumber`,
`RibsBetweenPlanesByDistance`, `RibsAlongCurveByNumber`,
`RibsAlongCurveByDistance`, `FramesBetweenPlanesByNumber`,
`FramesBetweenPlanesByDistance`, `FramesByPlanes`), on success
`next_index` equals `first_index` plus the number of parts in the returned
list, and the k-th created part (counting from zero) is labelled
`label + delimiter + str(first_index + k)`. -/
theorem c9_multi_builder_indexing {K : Kernel} (label delimiter : String)
    (first_index n nmin : Int) (maxd tol height : ℚ)
    (pln1A pln2A refPlnA : PyObj K.Plane) (crvA : PyObj K.Curve)
    (shape1A shape2A : PyObj K.Shape) (wingA : PyObj K.Wing)
    (fuselageA : PyObj K.Fuselage) (plnsA : List (PyObj K.Plane))
    (u1 u2 d1 d2 : Option ℚ) :
    (∀ res, RibsBetweenPlanesByNumber K label pln1A pln2A n shape1A shape2A
        wingA d1 d2 first_index delimiter = Except.ok res →
      res.next_index = first_index + res.parts.length ∧
      ∀ k (hk : k < res.parts.length), (res.parts.get ⟨k, hk⟩).label =
        label ++ delimiter ++ toString (first_index + (k : Int))) ∧
    (∀ res, RibsBetweenPlanesByDistance K label pln1A pln2A maxd shape1A
        shape2A wingA d1 d2 nmin first_index delimiter = Except.ok res →
      res.next_index = first_index + res.parts.length ∧
      ∀ k (hk : k < res.parts.length), (res.parts.get ⟨k, hk⟩).label =
        label ++ delimiter ++ toString (first_index + (k : Int))) ∧
    (∀ res, RibsAlongCurveByNumber K label crvA n shape1A shape2A wingA
        refPlnA u1 u2 d1 d2 first_index delimiter tol = Except.ok res →
      res.next_index = first_index + res.parts.length ∧
      ∀ k (hk : k < res.parts.length), (res.parts.get ⟨k, hk⟩).label =
        label ++ delimiter ++ toString (first_index + (k : Int))) ∧
    (∀ res, RibsAlongCurveByDistance K label crvA maxd shape1A shape2A wingA
        refPlnA u1 u2 d1 d2 nmin first_index delimiter tol = Except.ok res →
      res.next_index = first_index + res.parts.length ∧
      ∀ k (hk : k < res.parts.length), (res.parts.get ⟨k, hk⟩).label =
        label ++ delimiter ++ toString (first_index + (k : Int))) ∧
    (∀ res, FramesBetweenPlanesByNumber K label pln1A pln2A n fuselageA
        height d1 d2 first_index delimiter = Except.ok res →
      res.next_index = first_index + res.parts.length ∧
      ∀ k (hk : k < res.parts.length), (res.parts.get ⟨k, hk⟩).label =
        label ++ delimiter ++ toString (first_index + (k : Int))) ∧
    (∀ res, FramesBetweenPlanesByDistance K label pln1A pln2A maxd fuselageA
        height d1 d2 nmin first_index delimiter = Except.ok res →
      res.next_index = first_index + res.parts.length ∧
      ∀ k (hk : k < res.parts.length), (res.parts.get ⟨k, hk⟩).label =
        label ++ delimiter ++ toString (first_index + (k : Int))) ∧
    (∀ res, FramesByPlanes K label plnsA fuselageA height first_index
        delimiter = Except.ok res →
      res.next_index = first_index + res.parts.length ∧
      ∀ k (hk : k < res.parts.length), (res.parts.get ⟨k, hk⟩).label =
        label ++ delimiter ++ toString (first_index + (k : Int))) := by
  refine ⟨?_, ?_, ?_, ?_, ?_, ?_, ?_⟩
  · intro res h
    rcases pyBind_ok_elim h with ⟨pln1, _, h⟩
    rcases pyBind_ok_elim h with ⟨pln2, _, h⟩
    rcases pyBind_ok_elim h with ⟨wing, _, h⟩
    rcases pyBind_ok_elim h with ⟨s1, _, h⟩
    rcases pyBind_ok_elim h with ⟨s2, _, h⟩
    rcases pyBind_ok_elim h with ⟨pr, hpr, h⟩
    obtain ⟨parts, nxt⟩ := pr
    injection h with h
    obtain ⟨hn, hl⟩ := partLoop_ok
      (fun lbl b part hb => ribBetweenShapes_label hb) label delimiter _
      first_index parts nxt hpr
    rw [← h]
    exact ⟨hn, hl⟩
  · intro res h
    rcases pyBind_ok_elim h with ⟨pln1, _, h⟩
    rcases pyBind_ok_elim h with ⟨pln2, _, h⟩
    rcases pyBind_ok_elim h with ⟨wing, _, h⟩
    rcases pyBind_ok_elim h with ⟨s1, _, h⟩
    rcases pyBind_ok_elim h with ⟨s2, _, h⟩
    rcases pyBind_ok_elim h with ⟨pr, hpr, h⟩
    obtain ⟨parts, nxt⟩ := pr
    injection h with h
    obtain ⟨hn, hl⟩ := partLoop_ok
      (fun lbl b part hb => ribBetweenShapes_label hb) label delimiter _
      first_index parts nxt hpr
    rw [← h]
    exact ⟨hn, hl⟩
  · intro res h
    rcases pyBind_ok_elim h with ⟨crv, _, h⟩
    rcases pyBind_ok_elim h with ⟨s1, _, h⟩
    rcases pyBind_ok_elim h with ⟨s2, _, h⟩
    rcases pyBind_ok_elim h with ⟨wing, _, h⟩
    rcases pyBind_ok_elim h with ⟨ref_pln, _, h⟩
    rcases pyBind_ok_elim h with ⟨pr, hpr, h⟩
    obtain ⟨parts, nxt⟩ := pr
    injection h with h
    obtain ⟨hn, hl⟩ := partLoop_ok
      (fun lbl b part hb => ribBetweenShapes_label hb) label delimiter _
      first_index parts nxt hpr
    rw [← h]
    exact ⟨hn, hl⟩
  · intro res h
    rcases pyBind_ok_elim h with ⟨crv, _, h⟩
    rcases pyBind_ok_elim h with ⟨s1, _, h⟩
    rcases pyBind_ok_elim h with ⟨s2, _, h⟩
    rcases pyBind_ok_elim h with ⟨wing, _, h⟩
    rcases pyBind_ok_elim h with ⟨ref_pln, _, h⟩
    rcases pyBind_ok_elim h with ⟨pr, hpr, h⟩
    obtain ⟨parts, nxt⟩ := pr
    injection h with h
    obtain ⟨hn, hl⟩ := partLoop_ok
      (fun lbl b part hb => ribBetweenShapes_label hb) label delimiter _
      first_index parts nxt hpr
    rw [← h]
    exact ⟨hn, hl⟩
  · intro res h
    rcases pyBind_ok_elim h with ⟨pln1, _, h⟩
    rcases pyBind_ok_elim h with ⟨pln2, _, h⟩
    rcases pyBind_ok_elim h with ⟨fus, _, h⟩
    rcases pyBind_ok_elim h with ⟨pr, hpr, h⟩
    obtain ⟨parts, nxt⟩ := pr
    injection h with h
    obtain ⟨hn, hl⟩ := partLoop_ok
      (fun lbl b part hb => frameByPlane_label hb) label delimiter _
      first_index parts nxt hpr
    rw [← h]
    exact ⟨hn, hl⟩
  · intro res h
    rcases pyBind_ok_elim h with ⟨pln1, _, h⟩
    rcases pyBind_ok_elim h with ⟨pln2, _, h⟩
    rcases pyBind_ok_elim h with ⟨fus, _, h⟩
    rcases pyBind_ok_elim h with ⟨pr, hpr, h⟩
    obtain ⟨parts, nxt⟩ := pr
    injection h with h
    obtain ⟨hn, hl⟩ := partLoop_ok
      (fun lbl b part hb => frameByPlane_label hb) label delimiter _
      first_index parts nxt hpr
    rw [← h]
    exact ⟨hn, hl⟩
  · intro res h
    rcases pyBind_ok_elim h with ⟨plns, _, h⟩
    rcases pyBind_ok_elim h with ⟨fus, _, h⟩
    rcases pyBind_ok_elim h with ⟨pr, hpr, h⟩
    obtain ⟨parts, nxt⟩ := pr
    injection h with h
    obtain ⟨hn, hl⟩ := partLoop_ok
      (fun lbl b part hb => frameByPlane_label hb) label delimiter _
      first_index parts nxt hpr
    rw [← h]
    exact ⟨hn, hl⟩

/-- The concrete result of `FramesByPlanes` on `KTest` with two planes,
`first_index = 1`, `delimiter = " "`, used by the C9 witness. -/
def c9res : MultiResult KTest :=
  ⟨[⟨"F 1", 0, none, some 0⟩, ⟨"F 2", 0, none, some 0⟩], 3, 2, some 1⟩

/-- C9 witness: a concrete `FramesByPlanes` run creating two frames labelled
"F 1" and "F 2" with `next_index = 3 = 1 + 2`. -/
theorem c9_witness :
    FramesByPlanes KTest "F" [PyObj.val 0, PyObj.val 0] (PyObj.val 0) 2 1 " " =
      Except.ok c9res ∧
    c9res.next_index = 1 + c9res.parts.length ∧
    ∀ k (hk : k < c9res.parts.length), (c9res.parts.get ⟨k, hk⟩).label =
      "F" ++ " " ++ toString (1 + (k : Int)) :=
  ⟨rfl,
   ((c9_multi_builder_indexing "F" " " 1 2 0 0 0 2 (PyObj.val 0) (PyObj.val 0)
      PyObj.pyNone (PyObj.val 0) (PyObj.val 0) (PyObj.val 0) (PyObj.val 0)
      (PyObj.val 0) [PyObj.val 0, PyObj.val 0] none none none
      none).2.2.2.2.2.2 c9res rfl).1,
   ((c9_multi_builder_indexing "F" " " 1 2 0 0 0 2 (PyObj.val 0) (PyObj.val 0)
      PyObj.pyNone (PyObj.val 0) (PyObj.val 0) (PyObj.val 0) (PyObj.val 0)
      (PyObj.val 0) [PyObj.val 0, PyObj.val 0] none none none
      none).2.2.2.2.2.2 c9res rfl).2⟩

/-- An operation's result raises only the specification's two error shapes:
any error it produces that originates from a `raise` statement of this
repository's own code is either the validation `TypeError` or the
Boolean-flag `RuntimeError`. -/
def raisesOnlySpecErrors {ρ : Type} (x : Except PyError ρ) : Prop :=
  ∀ e, x = Except.error e → ownRaiseOrigin e.origin = true → allowedPyError e

theorem raisesOnly_of_builderError {ρ : Type} {x : Except PyError ρ}
    (hx : ∀ e, x = Except.error e → builderError e) :
    raisesOnlySpecErrors x :=
  fun e he hown => builderError_allowed (hx e he) hown

/-- C1 counterexample: `occView.export_pdf` executes the `raise` statement
`raise NotImplemented('Need gl2ps library.')` of this repository's own
code, whose raised exception (a `TypeError` from calling the non-callable
`NotImplemented` singleton) is neither the validation `TypeError` nor the
"operation not done" `RuntimeError` — so the public surface raises a third
kind of error. -/
theorem c1_counterexample :
    occView.export_pdf "screen.pdf" = Except.error PyError.notImplErr ∧
    ownRaiseOrigin PyError.notImplErr.origin = true ∧
    ¬ allowedPyError PyError.notImplErr :=
  ⟨rfl, rfl, by decide⟩

/-- C1 (amended): with the single exception of `occView.export_pdf` —
which unconditionally executes `raise NotImplemented('Need gl2ps
library.')` and thereby raises a `TypeError` that comes from neither
validation nor the Boolean flag — every modelled operation of the public
surface raises, through its own `raise` statements, only the generic
validation `TypeError` and the `RuntimeError` propagating the kernel's
"operation not done" flag.  (`IndexError`/`AttributeError` failures of
`[0]`-indexing or premature attribute access, and failures inside external
kernel calls, are raised by the runtime or the external layer, not by a
`raise` of this repository; the importer, the patch methods and the viewer
event handlers are total and raise nothing.) -/
theorem c1_error_surface_amended {K : Kernel} :
    (∀ (α : Type) (x : PyObj α), raisesOnlySpecErrors (validateReq x)) ∧
    (∀ (α : Type) (x : PyObj α), raisesOnlySpecErrors (validateOpt x)) ∧
    (∀ label shapeA crefA,
      raisesOnlySpecErrors (CurvePartByShape K label shapeA crefA)) ∧
    (∀ label shapeA crefA,
      raisesOnlySpecErrors (BeamByShape K label shapeA crefA)) ∧
    (∀ label crvA, raisesOnlySpecErrors (BeamByCurve K label crvA)) ∧
    (∀ label p1A p2A, raisesOnlySpecErrors (BeamByPoints K label p1A p2A)) ∧
    (∀ shapeA crefA srefA,
      raisesOnlySpecErrors (SurfacePartByShape K shapeA crefA srefA)) ∧
    (∀ label u1 v1 u2 v2 wingA basisA,
      raisesOnlySpecErrors (SparByParameters K label u1 v1 u2 v2 wingA basisA)) ∧
    (∀ label p1A p2A wingA basisA,
      raisesOnlySpecErrors (SparByPoints K label p1A p2A wingA basisA)) ∧
    (∀ label srfA wingA,
      raisesOnlySpecErrors (SparBySurface K label srfA wingA)) ∧
    (∀ label shape1A shape2A wingA basisA,
      raisesOnlySpecErrors (SparBetweenShapes K label shape1A shape2A wingA basisA)) ∧
    (∀ label u1 v1 u2 v2 wingA basisA,
      raisesOnlySpecErrors (RibByParameters K label u1 v1 u2 v2 wingA basisA)) ∧
    (∀ label p1A p2A wingA basisA,
      raisesOnlySpecErrors (RibByPoints K label p1A p2A wingA basisA)) ∧
    (∀ label srfA wingA,
      raisesOnlySpecErrors (RibBySurface K label srfA wingA)) ∧
    (∀ label shape1A shape2A wingA basisA,
      raisesOnlySpecErrors (RibBetweenShapes K label shape1A shape2A wingA basisA)) ∧
    (∀ label pln1A pln2A n shape1A shape2A wingA d1 d2 first_index delimiter,
      raisesOnlySpecErrors (RibsBetweenPlanesByNumber K label pln1A pln2A n
        shape1A shape2A wingA d1 d2 first_index delimiter)) ∧
    (∀ label pln1A pln2A maxd shape1A shape2A wingA d1 d2 nmin first_index
        delimiter,
      raisesOnlySpecErrors (RibsBetweenPlanesByDistance K label pln1A pln2A
        maxd shape1A shape2A wingA d1 d2 nmin first_index delimiter)) ∧
    (∀ label crvA n shape1A shape2A wingA refPlnA u1 u2 d1 d2 first_index
        delimiter tol,
      raisesOnlySpecErrors (RibsAlongCurveByNumber K label crvA n shape1A
        shape2A wingA refPlnA u1 u2 d1 d2 first_index delimiter tol)) ∧
    (∀ label crvA maxd shape1A shape2A wingA refPlnA u1 u2 d1 d2 nmin
        first_index delimiter tol,
      raisesOnlySpecErrors (RibsAlongCurveByDistance K label crvA maxd shape1A
        shape2A wingA refPlnA u1 u2 d1 d2 nmin first_index delimiter tol)) ∧
    (∀ label srfA fuselageA,
      raisesOnlySpecErrors (BulkheadBySurface K label srfA fuselageA)) ∧
    (∀ label srfA fuselageA,
      raisesOnlySpecErrors (FloorBySurface K label srfA fuselageA)) ∧
    (∀ label plnA fuselageA height,
      raisesOnlySpecErrors (FrameByPlane K label plnA fuselageA height)) ∧
    (∀ label pln1A pln2A n fuselageA height d1 d2 first_index delimiter,
      raisesOnlySpecErrors (FramesBetweenPlanesByNumber K label pln1A pln2A n
        fuselageA height d1 d2 first_index delimiter)) ∧
    (∀ label pln1A pln2A maxd fuselageA height d1 d2 nmin first_index
        delimiter,
      raisesOnlySpecErrors (FramesBetweenPlanesByDistance K label pln1A pln2A
        maxd fuselageA height d1 d2 nmin first_index delimiter)) ∧
    (∀ label plnsA fuselageA height first_index delimiter,
      raisesOnlySpecErrors (FramesByPlanes K label plnsA fuselageA height
        first_index delimiter)) ∧
    (∀ label solidA copy,
      raisesOnlySpecErrors (SkinBySolid K label solidA copy)) ∧
    (∀ label bodyA copy,
      raisesOnlySpecErrors (SkinByBody K label bodyA copy)) :=
  ⟨fun _ x => raisesOnly_of_builderError
      (fun e he => Or.inl (validateReq_error he)),
   fun _ x => raisesOnly_of_builderError
      (fun e he => Or.inl (validateOpt_error he)),
   fun _ _ _ => raisesOnly_of_builderError (fun e he => curvePartByShape_errs he),
   fun _ _ _ => raisesOnly_of_builderError (fun e he => beamByShape_errs he),
   fun _ _ => raisesOnly_of_builderError (fun e he => beamByCurve_errs he),
   fun _ _ _ => raisesOnly_of_builderError (fun e he => beamByPoints_errs he),
   fun _ _ _ => raisesOnly_of_builderError (fun e he => surfacePartByShape_errs he),
   fun _ _ _ _ _ _ _ => raisesOnly_of_builderError
      (fun e he => sparByParameters_errs he),
   fun _ _ _ _ _ => raisesOnly_of_builderError (fun e he => sparByPoints_errs he),
   fun _ _ _ => raisesOnly_of_builderError (fun e he => sparBySurface_errs he),
   fun _ _ _ _ _ => raisesOnly_of_builderError
      (fun e he => sparBetweenShapes_errs he),
   fun _ _ _ _ _ _ _ => raisesOnly_of_builderError
      (fun e he => ribByParameters_errs he),
   fun _ _ _ _ _ => raisesOnly_of_builderError (fun e he => ribByPoints_errs he),
   fun _ _ _ => raisesOnly_of_builderError (fun e he => ribBySurface_errs he),
   fun _ _ _ _ _ => raisesOnly_of_builderError
      (fun e he => ribBetweenShapes_errs he),
   fun _ _ _ _ _ _ _ _ _ _ _ => raisesOnly_of_builderError
      (fun e he => ribsBetweenPlanesByNumber_errs he),
   fun _ _ _ _ _ _ _ _ _ _ _ _ => raisesOnly_of_builderError
      (fun e he => ribsBetweenPlanesByDistance_errs he),
   fun _ _ _ _ _ _ _ _ _ _ _ _ _ _ => raisesOnly_of_builderError
      (fun e he => ribsAlongCurveByNumber_errs he),
   fun _ _ _ _ _ _ _ _ _ _ _ _ _ _ _ => raisesOnly_of_builderError
      (fun e he => ribsAlongCurveByDistance_errs he),
   fun _ _ _ => raisesOnly_of_builderError (fun e he => bulkheadBySurface_errs he),
   fun _ _ _ => raisesOnly_of_builderError (fun e he => floorBySurface_errs he),
   fun _ _ _ _ => raisesOnly_of_builderError (fun e he => frameByPlane_errs he),
   fun _ _ _ _ _ _ _ _ _ _ => raisesOnly_of_builderError
      (fun e he => framesBetweenPlanesByNumber_errs he),
   fun _ _ _ _ _ _ _ _ _ _ _ => raisesOnly_of_builderError
      (fun e he => framesBetweenPlanesByDistance_errs he),
   fun _ _ _ _ _ _ => raisesOnly_of_builderError
      (fun e he => framesByPlanes_errs he),
   fun _ _ _ => raisesOnly_of_builderError (fun e he => skinBySolid_errs he),
   fun _ _ _ => raisesOnly_of_builderError (fun e he => skinByBody_errs he)⟩

/-- C1 witness: the amended theorem applied at concrete runs — a failing
Boolean on `KFail` yields the allowed `RuntimeError`, and a wrongly-typed
input to `CurvePartByShape` yields the allowed validation `TypeError`. -/
theorem c1_witness :
    allowedPyError PyError.boolFailed ∧ allowedPyError PyError.typeValidation :=
  ⟨(c1_error_surface_amended (K := KFail)).2.2.2.2.2.2.2.1 "s" 0 0 1 0
      (PyObj.val 0) PyObj.pyNone PyError.boolFailed rfl rfl,
   (c1_error_surface_amended (K := KTest)).2.2.1 "c" PyObj.wrongType
      PyObj.pyNone PyError.typeValidation rfl rfl⟩
